import Mathlib

/-!
Verification of the modbus-go MODBUS protocol engine.

Shallow embedding of the Go sources: bytes are `Nat` (values < 256 on the
wire), 16-bit machine integers are `Nat` with explicit `% 65536` / `% 256`
where the Go code casts, byte slices are `List Nat`, and fallible code
returns `Option` / `Except`.
-/

/-! ## MODBUS constants (src/modbus/constants.go) -/

def FuncCodeReadCoils : Nat := 0x01
def FuncCodeReadDiscreteInputs : Nat := 0x02
def FuncCodeReadHoldingRegisters : Nat := 0x03
def FuncCodeReadInputRegisters : Nat := 0x04
def FuncCodeWriteSingleCoil : Nat := 0x05
def FuncCodeWriteSingleRegister : Nat := 0x06
def FuncCodeReadExceptionStatus : Nat := 0x07
def FuncCodeDiagnostic : Nat := 0x08
def FuncCodeGetCommEventCounter : Nat := 0x0B
def FuncCodeGetCommEventLog : Nat := 0x0C
def FuncCodeWriteMultipleCoils : Nat := 0x0F
def FuncCodeWriteMultipleRegisters : Nat := 0x10
def FuncCodeReportServerID : Nat := 0x11
def FuncCodeReadFileRecord : Nat := 0x14
def FuncCodeWriteFileRecord : Nat := 0x15
def FuncCodeMaskWriteRegister : Nat := 0x16
def FuncCodeReadWriteMultipleRegs : Nat := 0x17
def FuncCodeReadFIFOQueue : Nat := 0x18
def FuncCodeEncapsulatedInterface : Nat := 0x2B

def ExceptionCodeIllegalFunction : Nat := 0x01
def ExceptionCodeIllegalDataAddress : Nat := 0x02
def ExceptionCodeIllegalDataValue : Nat := 0x03
def ExceptionCodeServerDeviceFailure : Nat := 0x04

def MEITypeDeviceIdentification : Nat := 0x0E

def DeviceIDVendorName : Nat := 0x00
def DeviceIDProductCode : Nat := 0x01
def DeviceIDMajorMinorRevision : Nat := 0x02

def MaxPDUSize : Nat := 253
def MaxReadCoils : Nat := 2000
def MaxReadHoldingRegs : Nat := 125
def MaxWriteMultipleCoils : Nat := 1968
def MaxWriteMultipleRegs : Nat := 123
def MaxReadWriteRegs : Nat := 125
def MaxWriteReadWriteRegs : Nat := 121
def MaxReadFileRecordBytes : Nat := 245
def MaxWriteFileRecordBytes : Nat := 251
def MaxFIFOCount : Nat := 31

def MBAPHeaderSize : Nat := 7
def MBAPProtocolID : Nat := 0x0000

def CoilOn : Nat := 0xFF00
def CoilOff : Nat := 0x0000

def FileRecordTypeExtended : Nat := 0x06

/-! ## PDU (src/pdu/pdu.go) -/

/-- A MODBUS Protocol Data Unit: function code plus payload bytes. -/
structure PDU where
  functionCode : Nat
  data : List Nat
deriving DecidableEq, Repr

/-- `PDU.Bytes`: function-code byte followed by the payload. -/
def PDU.bytes (p : PDU) : List Nat :=
  p.functionCode :: p.data

/-- `PDU.Size`: 1 + len(Data). -/
def PDU.size (p : PDU) : Nat :=
  1 + p.data.length

/-- `FunctionCode.IsException`: fc & 0x80 != 0. -/
def isExceptionCode (fc : Nat) : Bool :=
  fc &&& 0x80 != 0

/-- `FunctionCode.ToException`: fc | 0x80. -/
def toException (fc : Nat) : Nat :=
  fc ||| 0x80

/-- `CreateExceptionPDU` / `NewExceptionResponse`: exception function code and
    a single-byte payload holding the exception code. -/
def newExceptionResponse (fc exceptionCode : Nat) : PDU :=
  ⟨toException fc, [exceptionCode]⟩

/-- `EncodeUint16`: big-endian 16-bit encoding (`byte(v >> 8)`, `byte(v)`). -/
def encodeUint16 (v : Nat) : List Nat :=
  [v / 256 % 256, v % 256]

/-- `binary.BigEndian.Uint16` on the first two bytes (callers guarantee
    length ≥ 2, matching the ignored-error use sites in the Go code). -/
def decodeU16 (data : List Nat) : Nat :=
  data.getD 0 0 * 256 + data.getD 1 0

/-- `EncodeUint16Slice`: big-endian encoding of each 16-bit value in order. -/
def encodeUint16Slice (values : List Nat) : List Nat :=
  values.flatMap encodeUint16

/-- `DecodeUint16Slice`: error on odd length, else consecutive big-endian pairs. -/
def decodeUint16Slice : List Nat → Option (List Nat)
  | [] => some []
  | [_] => none
  | hi :: lo :: rest => (decodeUint16Slice rest).map (fun vs => (hi * 256 + lo) :: vs)

/-! ### Bit packing (EncodeBoolSlice / DecodeBoolSlice) -/

/-- The loop of `EncodeBoolSlice`: for each value at index `i`, if true, OR
    `1 << (i % 8)` into byte `i / 8` of the result. -/
def encodeBoolLoop : List Bool → Nat → List Nat → List Nat
  | [], _, result => result
  | v :: rest, i, result =>
      encodeBoolLoop rest (i + 1)
        (if v then result.set (i / 8) (result.getD (i / 8) 0 ||| (1 <<< (i % 8)))
         else result)

/-- `EncodeBoolSlice`: bit-pack bools into `(n+7)/8` bytes, bit `i % 8` of
    byte `i / 8`. -/
def EncodeBoolSlice (values : List Bool) : List Nat :=
  if values.length = 0 then []
  else encodeBoolLoop values 0 (List.replicate ((values.length + 7) / 8) 0)

/-- `DecodeBoolSlice`: element `i` is bit `i % 8` of byte `i / 8` while
    `i < count` and `i < len(data) * 8`; remaining elements stay false. -/
def DecodeBoolSlice (data : List Nat) (count : Nat) : List Bool :=
  (List.range count).map
    (fun i => if i < data.length * 8
      then data.getD (i / 8) 0 &&& (1 <<< (i % 8)) != 0
      else false)

/-! ### Checksums (src: transport serial helpers) -/

/-- `calculateLRC`: 8-bit sum of the bytes, then two's-complement negation
    (`uint8(-int8(lrc))`). -/
def calculateLRC (data : List Nat) : Nat :=
  (256 - data.foldl (fun lrc b => (lrc + b) % 256) 0) % 256

/-! ## Request builders (src/pdu/pdu.go ValidateQuantity/ValidateAddress,
    request builders) -/

/-- `ValidateQuantity`: per-function-code quantity limits; `true` means valid.
    Function codes without a listed limit validate trivially. -/
def validateQuantity (functionCode quantity : Nat) : Bool :=
  if functionCode = FuncCodeReadCoils ∨ functionCode = FuncCodeReadDiscreteInputs then
    decide (1 ≤ quantity ∧ quantity ≤ MaxReadCoils)
  else if functionCode = FuncCodeReadHoldingRegisters ∨ functionCode = FuncCodeReadInputRegisters then
    decide (1 ≤ quantity ∧ quantity ≤ MaxReadHoldingRegs)
  else if functionCode = FuncCodeWriteMultipleCoils then
    decide (1 ≤ quantity ∧ quantity ≤ MaxWriteMultipleCoils)
  else if functionCode = FuncCodeWriteMultipleRegisters then
    decide (1 ≤ quantity ∧ quantity ≤ MaxWriteMultipleRegs)
  else
    true

/-- `ValidateAddress`: `uint32(address) + uint32(quantity) > 0x10000` is an
    error; `true` means valid. -/
def validateAddress (address quantity : Nat) : Bool :=
  decide (address + quantity ≤ 0x10000)

/-- Shared body of the four read-request builders: validate quantity then
    address, and on success emit big-endian address and quantity. -/
def readRequestBuilder (functionCode address quantity : Nat) : Option PDU :=
  if validateQuantity functionCode quantity = false then none
  else if validateAddress address quantity = false then none
  else some ⟨functionCode, encodeUint16 address ++ encodeUint16 quantity⟩

/-- `ReadCoilsRequest`. -/
def ReadCoilsRequest (address quantity : Nat) : Option PDU :=
  readRequestBuilder FuncCodeReadCoils address quantity

/-- `ReadDiscreteInputsRequest`. -/
def ReadDiscreteInputsRequest (address quantity : Nat) : Option PDU :=
  readRequestBuilder FuncCodeReadDiscreteInputs address quantity

/-- `ReadHoldingRegistersRequest`. -/
def ReadHoldingRegistersRequest (address quantity : Nat) : Option PDU :=
  readRequestBuilder FuncCodeReadHoldingRegisters address quantity

/-- `ReadInputRegistersRequest`. -/
def ReadInputRegistersRequest (address quantity : Nat) : Option PDU :=
  readRequestBuilder FuncCodeReadInputRegisters address quantity

/-- `WriteMultipleCoilsRequest`: quantity is `len(values)`; payload is
    address, quantity, byte count, then the bit-packed coil bytes. -/
def WriteMultipleCoilsRequest (address : Nat) (values : List Bool) : Option PDU :=
  let quantity := values.length % 65536
  if validateQuantity FuncCodeWriteMultipleCoils quantity = false then none
  else if validateAddress address quantity = false then none
  else
    let coilBytes := EncodeBoolSlice values
    some ⟨FuncCodeWriteMultipleCoils,
      encodeUint16 address ++ encodeUint16 quantity ++
        (coilBytes.length % 256 :: coilBytes)⟩

/-- `WriteMultipleRegistersRequest`: quantity is `len(values)`; payload is
    address, quantity, byte count, then the big-endian register bytes. -/
def WriteMultipleRegistersRequest (address : Nat) (values : List Nat) : Option PDU :=
  let quantity := values.length % 65536
  if validateQuantity FuncCodeWriteMultipleRegisters quantity = false then none
  else if validateAddress address quantity = false then none
  else
    let registerBytes := encodeUint16Slice values
    some ⟨FuncCodeWriteMultipleRegisters,
      encodeUint16 address ++ encodeUint16 quantity ++
        (registerBytes.length % 256 :: registerBytes)⟩

/-! ## Client retry loop (src client.go `Client.sendRequest`) -/

/-- The error recorded in `lastErr` during a retry iteration: a transport
    `SendRequest` failure or an auto-reconnect failure (underlying errors are
    abstracted as numeric codes). -/
inductive LastErr where
  | sendFail (e : Nat)
  | reconnectFail (e : Nat)
deriving DecidableEq, Repr

/-- The error surfaced by `Client.sendRequest`: either "transport not
    connected" or the terminal wrap "request failed after N attempts: lastErr". -/
inductive ClientError where
  | notConnected
  | requestFailed (attempts : Nat) (last : Option LastErr)
deriving DecidableEq, Repr

/-- The environment a client request runs against: per-attempt connectivity,
    the auto-reconnect flag, per-attempt `Connect` outcomes, and per-attempt
    `transport.SendRequest` outcomes. -/
structure ClientEnv where
  isConnected : Nat → Bool
  autoReconnect : Bool
  connectErr : Nat → Option Nat
  send : Nat → Except Nat PDU

/-- One pass of the retry loop of `Client.sendRequest`, recursing on the
    number of remaining iterations (`retryCount + 1` at the start). Returns the
    result together with how many times `transport.SendRequest` was invoked. -/
def sendLoop (env : ClientEnv) (retryCount : Nat) :
    Nat → Nat → Option LastErr → Nat → Except ClientError PDU × Nat
  | 0, _, lastErr, sends =>
      (.error (.requestFailed (retryCount + 1) lastErr), sends)
  | remaining + 1, attempt, lastErr, sends =>
      if env.isConnected attempt = false ∧ env.autoReconnect = false then
        (.error .notConnected, sends)
      else
        match env.isConnected attempt, env.connectErr attempt with
        | false, some e =>
            sendLoop env retryCount remaining (attempt + 1)
              (some (.reconnectFail e)) sends
        | _, _ =>
            match env.send attempt with
            | .ok resp => (.ok resp, sends + 1)
            | .error e =>
                sendLoop env retryCount remaining (attempt + 1)
                  (some (.sendFail e)) (sends + 1)

/-- `Client.sendRequest`: run the loop for attempts `0 .. retryCount`. -/
def clientSendRequest (env : ClientEnv) (retryCount : Nat) :
    Except ClientError PDU × Nat :=
  sendLoop env retryCount (retryCount + 1) 0 none 0

/-! ## MBAP framing and the TCP transport (src transport tcp) -/

/-- The 7-byte MBAP header. -/
structure MBAPHeader where
  transactionID : Nat
  protocolID : Nat
  length : Nat
  unitID : Nat
deriving DecidableEq, Repr

/-- `EncodeMBAP`: big-endian transaction ID, protocol ID and length, then the
    unit-ID byte. -/
def encodeMBAP (h : MBAPHeader) : List Nat :=
  encodeUint16 h.transactionID ++ encodeUint16 h.protocolID ++
    encodeUint16 h.length ++ [h.unitID]

/-- The client-relevant state of a `TCPTransport`: the `connected` flag and
    the 16-bit transaction counter. -/
structure TCPState where
  connected : Bool
  transactionID : Nat
deriving DecidableEq, Repr

/-- `NewTCPTransport` starts with `transactionID = 1`; `Connect` sets
    `connected`. -/
def tcpInitialState : TCPState :=
  ⟨true, 1⟩

/-- The transaction-counter update of `TCPTransport.SendRequest`:
    `t.transactionID++` on a uint16, then `if == 0 { = 1 }`. -/
def tcpNextTxID (t : Nat) : Nat :=
  let t' := (t + 1) % 65536
  if t' = 0 then 1 else t'

/-- The errors `TCPTransport.SendRequest` can surface. -/
inductive TCPSendError where
  | notConnectedErr
  | receiveFailed
  | transactionIDMismatch
  | protocolIDMismatch
  | unitIDMismatch
deriving DecidableEq, Repr

/-- `TCPTransport.SendRequest`: with the wire abstracted, `recv` is what
    `receiveADU` would produce (`none` = receive error). Returns the new
    transport state, the MBAP request header written to the wire (if any),
    and the result. The error paths return without touching `connected`. -/
def tcpSendRequest (st : TCPState) (slaveID : Nat) (request : PDU)
    (recv : Option (MBAPHeader × PDU)) :
    TCPState × Option MBAPHeader × Except TCPSendError PDU :=
  if st.connected = false then (st, none, .error .notConnectedErr)
  else
    let txID := st.transactionID
    let st' : TCPState := { st with transactionID := tcpNextTxID st.transactionID }
    let header : MBAPHeader :=
      ⟨txID, MBAPProtocolID, (1 + request.bytes.length) % 65536, slaveID⟩
    match recv with
    | none => (st', some header, .error .receiveFailed)
    | some (respHeader, respPDU) =>
        if respHeader.transactionID ≠ txID then
          (st', some header, .error .transactionIDMismatch)
        else if respHeader.protocolID ≠ MBAPProtocolID then
          (st', some header, .error .protocolIDMismatch)
        else if respHeader.unitID ≠ slaveID then
          (st', some header, .error .unitIDMismatch)
        else
          (st', some header, .ok respPDU)

/-- The transport state after `n` calls of `SendRequest` on a freshly
    connected `TCPTransport` (requests and received frames given by oracles). -/
def tcpRunState (recvs : Nat → Option (MBAPHeader × PDU)) (reqs : Nat → PDU)
    (slaveID : Nat) : Nat → TCPState
  | 0 => tcpInitialState
  | n + 1 =>
      (tcpSendRequest (tcpRunState recvs reqs slaveID n) slaveID (reqs n)
        (recvs n)).1

/-- The transaction ID placed in the MBAP header of the `n`-th `SendRequest`
    call (0 if nothing was sent). -/
def tcpSentTxID (recvs : Nat → Option (MBAPHeader × PDU)) (reqs : Nat → PDU)
    (slaveID : Nat) (n : Nat) : Nat :=
  match (tcpSendRequest (tcpRunState recvs reqs slaveID n) slaveID (reqs n)
      (recvs n)).2.1 with
  | none => 0
  | some h => h.transactionID

/-! ## The default data store (src/server.go `DefaultDataStore`) -/

/-- `modbus.ModbusError`: an error carrying a function code and an exception
    code (the message string is dropped). -/
structure ModbusError where
  functionCode : Nat
  exceptionCode : Nat
deriving DecidableEq, Repr

/-- `modbus.FileRecord`. -/
structure FileRecord where
  referenceType : Nat
  fileNumber : Nat
  recordNumber : Nat
  recordLength : Nat
  recordData : List Nat
deriving DecidableEq, Repr

/-- `modbus.DiagnosticData`: the named 16-bit diagnostic counters. -/
structure DiagnosticData where
  busMessageCount : Nat := 0
  busCommErrorCount : Nat := 0
  busExceptionCount : Nat := 0
  serverMessageCount : Nat := 0
  serverNoRespCount : Nat := 0
  serverNAKCount : Nat := 0
  serverBusyCount : Nat := 0
  busCharOverrunCount : Nat := 0
deriving DecidableEq, Repr

/-- `DefaultDataStore`: in-memory regions; the Go maps become functions to
    `Option`. -/
structure DefaultDataStore where
  coils : List Bool
  discreteInputs : List Bool
  holdingRegisters : List Nat
  inputRegisters : List Nat
  fileRecords : Nat → Option (Nat → Option (List Nat))
  fifoQueues : Nat → Option (List Nat)
  exceptionStatus : Nat
  diagnosticData : DiagnosticData
  commEventLog : List Nat

/-- `NewDefaultDataStore`. -/
def NewDefaultDataStore (coilCount discreteInputCount holdingRegCount inputRegCount : Nat) :
    DefaultDataStore :=
  { coils := List.replicate coilCount false
    discreteInputs := List.replicate discreteInputCount false
    holdingRegisters := List.replicate holdingRegCount 0
    inputRegisters := List.replicate inputRegCount 0
    fileRecords := fun _ => none
    fifoQueues := fun _ => none
    exceptionStatus := 0
    diagnosticData := {}
    commEventLog := [] }

/-- `copy(l[start:start+len(values)], values)` preceded by the bound check the
    store operations perform: replace the slice at `start`. -/
def listSetRange {α : Type} (l : List α) (start : Nat) (values : List α) : List α :=
  l.take start ++ values ++ l.drop (start + values.length)

/-- `DefaultDataStore.ReadCoils`. -/
def DefaultDataStore.ReadCoils (ds : DefaultDataStore) (address quantity : Nat) :
    Except ModbusError (List Bool) :=
  if address + quantity > ds.coils.length then
    .error ⟨FuncCodeReadCoils, ExceptionCodeIllegalDataAddress⟩
  else .ok ((ds.coils.drop address).take quantity)

/-- `DefaultDataStore.WriteCoils`. -/
def DefaultDataStore.WriteCoils (ds : DefaultDataStore) (address : Nat)
    (values : List Bool) : Except ModbusError DefaultDataStore :=
  if address + values.length > ds.coils.length then
    .error ⟨FuncCodeWriteMultipleCoils, ExceptionCodeIllegalDataAddress⟩
  else .ok { ds with coils := listSetRange ds.coils address values }

/-- `DefaultDataStore.ReadDiscreteInputs`. -/
def DefaultDataStore.ReadDiscreteInputs (ds : DefaultDataStore) (address quantity : Nat) :
    Except ModbusError (List Bool) :=
  if address + quantity > ds.discreteInputs.length then
    .error ⟨FuncCodeReadDiscreteInputs, ExceptionCodeIllegalDataAddress⟩
  else .ok ((ds.discreteInputs.drop address).take quantity)

/-- `DefaultDataStore.ReadHoldingRegisters`. -/
def DefaultDataStore.ReadHoldingRegisters (ds : DefaultDataStore) (address quantity : Nat) :
    Except ModbusError (List Nat) :=
  if address + quantity > ds.holdingRegisters.length then
    .error ⟨FuncCodeReadHoldingRegisters, ExceptionCodeIllegalDataAddress⟩
  else .ok ((ds.holdingRegisters.drop address).take quantity)

/-- `DefaultDataStore.WriteHoldingRegisters`. -/
def DefaultDataStore.WriteHoldingRegisters (ds : DefaultDataStore) (address : Nat)
    (values : List Nat) : Except ModbusError DefaultDataStore :=
  if address + values.length > ds.holdingRegisters.length then
    .error ⟨FuncCodeWriteMultipleRegisters, ExceptionCodeIllegalDataAddress⟩
  else .ok { ds with holdingRegisters := listSetRange ds.holdingRegisters address values }

/-- `DefaultDataStore.ReadInputRegisters`. -/
def DefaultDataStore.ReadInputRegisters (ds : DefaultDataStore) (address quantity : Nat) :
    Except ModbusError (List Nat) :=
  if address + quantity > ds.inputRegisters.length then
    .error ⟨FuncCodeReadInputRegisters, ExceptionCodeIllegalDataAddress⟩
  else .ok ((ds.inputRegisters.drop address).take quantity)

/-- `DefaultDataStore.ReadFileRecords`: per record, require the extended
    reference type, an existing file and record, and enough data. -/
def DefaultDataStore.ReadFileRecords (ds : DefaultDataStore) :
    List FileRecord → Except ModbusError (List FileRecord)
  | [] => .ok []
  | record :: rest =>
      if record.referenceType ≠ FileRecordTypeExtended then
        .error ⟨FuncCodeReadFileRecord, ExceptionCodeIllegalDataValue⟩
      else
        match ds.fileRecords record.fileNumber with
        | none => .error ⟨FuncCodeReadFileRecord, ExceptionCodeIllegalDataAddress⟩
        | some fileMap =>
            match fileMap record.recordNumber with
            | none => .error ⟨FuncCodeReadFileRecord, ExceptionCodeIllegalDataAddress⟩
            | some recordData =>
                if recordData.length % 65536 < record.recordLength then
                  .error ⟨FuncCodeReadFileRecord, ExceptionCodeIllegalDataAddress⟩
                else
                  (ds.ReadFileRecords rest).map
                    (fun rs =>
                      { record with recordData := recordData.take record.recordLength } :: rs)

/-- `DefaultDataStore.WriteFileRecords`: records written so far persist even
    when a later record fails (the Go loop mutates the map in place). -/
def DefaultDataStore.WriteFileRecords (ds : DefaultDataStore) :
    List FileRecord → DefaultDataStore × Option ModbusError
  | [] => (ds, none)
  | record :: rest =>
      if record.referenceType ≠ FileRecordTypeExtended then
        (ds, some ⟨FuncCodeWriteFileRecord, ExceptionCodeIllegalDataValue⟩)
      else
        let fileMap := (ds.fileRecords record.fileNumber).getD (fun _ => none)
        let fileMap' := fun n =>
          if n = record.recordNumber then some record.recordData else fileMap n
        let ds' := { ds with
          fileRecords := fun m =>
            if m = record.fileNumber then some fileMap' else ds.fileRecords m }
        ds'.WriteFileRecords rest

/-- `DefaultDataStore.ReadFIFOQueue`: an address with no stored queue reads
    as the empty queue, not an error. -/
def DefaultDataStore.ReadFIFOQueue (ds : DefaultDataStore) (address : Nat) :
    Except ModbusError (List Nat) :=
  match ds.fifoQueues address with
  | none => .ok []
  | some queue => .ok queue

/-- `DefaultDataStore.ReadExceptionStatus`. -/
def DefaultDataStore.ReadExceptionStatus (ds : DefaultDataStore) :
    Except ModbusError Nat :=
  .ok ds.exceptionStatus

/-- `DefaultDataStore.GetDiagnosticData`: switch over the sub-function;
    returns the (possibly cleared) store and the reply data. -/
def DefaultDataStore.GetDiagnosticData (ds : DefaultDataStore)
    (subFunction : Nat) (data : List Nat) :
    DefaultDataStore × Except ModbusError (List Nat) :=
  if subFunction = 0x0000 then (ds, .ok data)
  else if subFunction = 0x0001 then
    ({ ds with commEventLog := [], diagnosticData := {} }, .ok data)
  else if subFunction = 0x0002 then (ds, .ok [0x00, 0x00])
  else if subFunction = 0x000A then ({ ds with diagnosticData := {} }, .ok data)
  else if subFunction = 0x000B then
    (ds, .ok (encodeUint16 ds.diagnosticData.busMessageCount))
  else if subFunction = 0x000C then
    (ds, .ok (encodeUint16 ds.diagnosticData.busCommErrorCount))
  else if subFunction = 0x000D then
    (ds, .ok (encodeUint16 ds.diagnosticData.busExceptionCount))
  else if subFunction = 0x000E then
    (ds, .ok (encodeUint16 ds.diagnosticData.serverMessageCount))
  else if subFunction = 0x000F then
    (ds, .ok (encodeUint16 ds.diagnosticData.serverNoRespCount))
  else if subFunction = 0x0010 then
    (ds, .ok (encodeUint16 ds.diagnosticData.serverNAKCount))
  else if subFunction = 0x0011 then
    (ds, .ok (encodeUint16 ds.diagnosticData.serverBusyCount))
  else if subFunction = 0x0012 then
    (ds, .ok (encodeUint16 ds.diagnosticData.busCharOverrunCount))
  else (ds, .error ⟨FuncCodeDiagnostic, ExceptionCodeIllegalFunction⟩)

/-- `DefaultDataStore.GetCommEventCounter`: status 0xFFFF and the bus message
    count. -/
def DefaultDataStore.GetCommEventCounter (ds : DefaultDataStore) :
    Except ModbusError (Nat × Nat) :=
  .ok (0xFFFF, ds.diagnosticData.busMessageCount)

/-- `DefaultDataStore.GetCommEventLog`: status 0xFFFF, bus message count,
    server message count, and the event log bytes. -/
def DefaultDataStore.GetCommEventLog (ds : DefaultDataStore) :
    Except ModbusError (Nat × Nat × Nat × List Nat) :=
  .ok (0xFFFF, ds.diagnosticData.busMessageCount,
    ds.diagnosticData.serverMessageCount, ds.commEventLog)

/-! ## Server request handlers (src/server.go `ServerRequestHandler`) -/

/-- `modbus.DeviceIdentification` (the fields the server touches); strings
    are byte lists. -/
structure DeviceIdentification where
  vendorName : List Nat
  productCode : List Nat
  majorMinorRevision : List Nat
  conformityLevel : Nat
deriving DecidableEq, Repr

/-- The device info installed by `NewServerRequestHandler`
    ("ModbusGo", "MG001", "1.0.0", basic-stream conformity). -/
def defaultDeviceInfo : DeviceIdentification :=
  { vendorName := [77, 111, 100, 98, 117, 115, 71, 111]
    productCode := [77, 71, 48, 48, 49]
    majorMinorRevision := [49, 46, 48, 46, 48]
    conformityLevel := 0x01 }

/-- Exception-mapping shared by every handler: a `ModbusError` is reflected
    verbatim (the non-ModbusError → ServerDeviceFailure path is unreachable
    with the default store). -/
def exceptionFor (req : PDU) (e : ModbusError) : PDU :=
  newExceptionResponse req.functionCode e.exceptionCode

/-- `handleReadCoils`. -/
def handleReadCoils (ds : DefaultDataStore) (req : PDU) : DefaultDataStore × PDU :=
  if req.data.length ≠ 4 then
    (ds, newExceptionResponse req.functionCode ExceptionCodeIllegalDataValue)
  else
    match ds.ReadCoils (decodeU16 req.data) (decodeU16 (req.data.drop 2)) with
    | .error e => (ds, exceptionFor req e)
    | .ok values =>
        let coilBytes := EncodeBoolSlice values
        (ds, ⟨req.functionCode, coilBytes.length % 256 :: coilBytes⟩)

/-- `handleReadDiscreteInputs`. -/
def handleReadDiscreteInputs (ds : DefaultDataStore) (req : PDU) : DefaultDataStore × PDU :=
  if req.data.length ≠ 4 then
    (ds, newExceptionResponse req.functionCode ExceptionCodeIllegalDataValue)
  else
    match ds.ReadDiscreteInputs (decodeU16 req.data) (decodeU16 (req.data.drop 2)) with
    | .error e => (ds, exceptionFor req e)
    | .ok values =>
        let inputBytes := EncodeBoolSlice values
        (ds, ⟨req.functionCode, inputBytes.length % 256 :: inputBytes⟩)

/-- `handleReadHoldingRegisters`. -/
def handleReadHoldingRegisters (ds : DefaultDataStore) (req : PDU) : DefaultDataStore × PDU :=
  if req.data.length ≠ 4 then
    (ds, newExceptionResponse req.functionCode ExceptionCodeIllegalDataValue)
  else
    match ds.ReadHoldingRegisters (decodeU16 req.data) (decodeU16 (req.data.drop 2)) with
    | .error e => (ds, exceptionFor req e)
    | .ok values =>
        let registerBytes := encodeUint16Slice values
        (ds, ⟨req.functionCode, registerBytes.length % 256 :: registerBytes⟩)

/-- `handleReadInputRegisters`. -/
def handleReadInputRegisters (ds : DefaultDataStore) (req : PDU) : DefaultDataStore × PDU :=
  if req.data.length ≠ 4 then
    (ds, newExceptionResponse req.functionCode ExceptionCodeIllegalDataValue)
  else
    match ds.ReadInputRegisters (decodeU16 req.data) (decodeU16 (req.data.drop 2)) with
    | .error e => (ds, exceptionFor req e)
    | .ok values =>
        let registerBytes := encodeUint16Slice values
        (ds, ⟨req.functionCode, registerBytes.length % 256 :: registerBytes⟩)

/-- `handleWriteSingleCoil`: the value must be 0xFF00 or 0x0000; the response
    echoes the request payload. -/
def handleWriteSingleCoil (ds : DefaultDataStore) (req : PDU) : DefaultDataStore × PDU :=
  if req.data.length ≠ 4 then
    (ds, newExceptionResponse req.functionCode ExceptionCodeIllegalDataValue)
  else
    let address := decodeU16 req.data
    let value := decodeU16 (req.data.drop 2)
    if value ≠ CoilOff ∧ value ≠ CoilOn then
      (ds, newExceptionResponse req.functionCode ExceptionCodeIllegalDataValue)
    else
      match ds.WriteCoils address [value == CoilOn] with
      | .error e => (ds, exceptionFor req e)
      | .ok ds' => (ds', ⟨req.functionCode, req.data⟩)

/-- `handleWriteSingleRegister`: echoes the request payload. -/
def handleWriteSingleRegister (ds : DefaultDataStore) (req : PDU) : DefaultDataStore × PDU :=
  if req.data.length ≠ 4 then
    (ds, newExceptionResponse req.functionCode ExceptionCodeIllegalDataValue)
  else
    let address := decodeU16 req.data
    let value := decodeU16 (req.data.drop 2)
    match ds.WriteHoldingRegisters address [value] with
    | .error e => (ds, exceptionFor req e)
    | .ok ds' => (ds', ⟨req.functionCode, req.data⟩)

/-- `handleWriteMultipleCoils`. -/
def handleWriteMultipleCoils (ds : DefaultDataStore) (req : PDU) : DefaultDataStore × PDU :=
  if req.data.length < 5 then
    (ds, newExceptionResponse req.functionCode ExceptionCodeIllegalDataValue)
  else
    let address := decodeU16 req.data
    let quantity := decodeU16 (req.data.drop 2)
    let byteCount := req.data.getD 4 0
    if req.data.length ≠ 5 + byteCount then
      (ds, newExceptionResponse req.functionCode ExceptionCodeIllegalDataValue)
    else
      let values := DecodeBoolSlice (req.data.drop 5) quantity
      match ds.WriteCoils address values with
      | .error e => (ds, exceptionFor req e)
      | .ok ds' =>
          (ds', ⟨req.functionCode, encodeUint16 address ++ encodeUint16 quantity⟩)

/-- `handleWriteMultipleRegisters`. -/
def handleWriteMultipleRegisters (ds : DefaultDataStore) (req : PDU) : DefaultDataStore × PDU :=
  if req.data.length < 5 then
    (ds, newExceptionResponse req.functionCode ExceptionCodeIllegalDataValue)
  else
    let address := decodeU16 req.data
    let quantity := decodeU16 (req.data.drop 2)
    let byteCount := req.data.getD 4 0
    if req.data.length ≠ 5 + byteCount ∨ byteCount ≠ quantity * 2 then
      (ds, newExceptionResponse req.functionCode ExceptionCodeIllegalDataValue)
    else
      match decodeUint16Slice (req.data.drop 5) with
      | none => (ds, newExceptionResponse req.functionCode ExceptionCodeIllegalDataValue)
      | some values =>
          match ds.WriteHoldingRegisters address values with
          | .error e => (ds, exceptionFor req e)
          | .ok ds' =>
              (ds', ⟨req.functionCode, encodeUint16 address ++ encodeUint16 quantity⟩)

/-- `handleMaskWriteRegister`: read-modify-write
    `(current & AND) | (OR & ^AND)` (Go `^` on uint16 = XOR 0xFFFF); the
    response echoes the request payload. -/
def handleMaskWriteRegister (ds : DefaultDataStore) (req : PDU) : DefaultDataStore × PDU :=
  if req.data.length ≠ 6 then
    (ds, newExceptionResponse req.functionCode ExceptionCodeIllegalDataValue)
  else
    let address := decodeU16 req.data
    let andMask := decodeU16 (req.data.drop 2)
    let orMask := decodeU16 (req.data.drop 4)
    match ds.ReadHoldingRegisters address 1 with
    | .error e => (ds, exceptionFor req e)
    | .ok currentValues =>
        let current := currentValues.getD 0 0
        let result := (current &&& andMask) ||| (orMask &&& (andMask ^^^ 0xFFFF))
        match ds.WriteHoldingRegisters address [result] with
        | .error e => (ds, exceptionFor req e)
        | .ok ds' => (ds', ⟨req.functionCode, req.data⟩)

/-- `handleReadWriteMultipleRegisters`: write first, then read. -/
def handleReadWriteMultipleRegisters (ds : DefaultDataStore) (req : PDU) :
    DefaultDataStore × PDU :=
  if req.data.length < 9 then
    (ds, newExceptionResponse req.functionCode ExceptionCodeIllegalDataValue)
  else
    let readAddress := decodeU16 req.data
    let readQuantity := decodeU16 (req.data.drop 2)
    let writeAddress := decodeU16 (req.data.drop 4)
    let writeQuantity := decodeU16 (req.data.drop 6)
    let writeByteCount := req.data.getD 8 0
    if req.data.length ≠ 9 + writeByteCount ∨ writeByteCount ≠ writeQuantity * 2 then
      (ds, newExceptionResponse req.functionCode ExceptionCodeIllegalDataValue)
    else
      match decodeUint16Slice (req.data.drop 9) with
      | none => (ds, newExceptionResponse req.functionCode ExceptionCodeIllegalDataValue)
      | some writeValues =>
          match ds.WriteHoldingRegisters writeAddress writeValues with
          | .error e => (ds, exceptionFor req e)
          | .ok ds' =>
              match ds'.ReadHoldingRegisters readAddress readQuantity with
              | .error e => (ds', exceptionFor req e)
              | .ok readValues =>
                  let registerBytes := encodeUint16Slice readValues
                  (ds', ⟨req.functionCode, registerBytes.length % 256 :: registerBytes⟩)

/-- `handleReadExceptionStatus`. -/
def handleReadExceptionStatus (ds : DefaultDataStore) (req : PDU) : DefaultDataStore × PDU :=
  match ds.ReadExceptionStatus with
  | .error e => (ds, exceptionFor req e)
  | .ok status => (ds, ⟨req.functionCode, [status]⟩)

/-- `handleDiagnostic`. -/
def handleDiagnostic (ds : DefaultDataStore) (req : PDU) : DefaultDataStore × PDU :=
  if req.data.length < 2 then
    (ds, newExceptionResponse req.functionCode ExceptionCodeIllegalDataValue)
  else
    let subFunction := decodeU16 req.data
    let tail := req.data.drop 2
    match ds.GetDiagnosticData subFunction tail with
    | (ds', .error e) => (ds', exceptionFor req e)
    | (ds', .ok result) =>
        (ds', ⟨req.functionCode, encodeUint16 subFunction ++ result⟩)

/-- `handleGetCommEventCounter`. -/
def handleGetCommEventCounter (ds : DefaultDataStore) (req : PDU) : DefaultDataStore × PDU :=
  match ds.GetCommEventCounter with
  | .error e => (ds, exceptionFor req e)
  | .ok (status, eventCount) =>
      (ds, ⟨req.functionCode, encodeUint16 status ++ encodeUint16 eventCount⟩)

/-- `handleGetCommEventLog`. -/
def handleGetCommEventLog (ds : DefaultDataStore) (req : PDU) : DefaultDataStore × PDU :=
  match ds.GetCommEventLog with
  | .error e => (ds, exceptionFor req e)
  | .ok (status, eventCount, messageCount, events) =>
      (ds, ⟨req.functionCode,
        (6 + events.length) % 256 ::
          (encodeUint16 status ++ encodeUint16 eventCount ++
            encodeUint16 messageCount ++ events)⟩)

/-- `handleReportServerID`: fixed server id "ModbusGo Server v1.0" with run
    indicator 0xFF. -/
def handleReportServerID (ds : DefaultDataStore) (req : PDU) : DefaultDataStore × PDU :=
  let serverID : List Nat :=
    [77, 111, 100, 98, 117, 115, 71, 111, 32, 83, 101, 114, 118, 101, 114,
     32, 118, 49, 46, 48]
  (ds, ⟨req.functionCode, (1 + serverID.length) % 256 :: 0xFF :: serverID⟩)

/-- The sub-request parsing loop of `handleReadFileRecord`: 7-byte chunks;
    a short tail is an error. -/
def parseFileRecordRequests : List Nat → Option (List FileRecord)
  | [] => some []
  | rt :: f1 :: f2 :: r1 :: r2 :: l1 :: l2 :: rest =>
      (parseFileRecordRequests rest).map
        (fun rs => ⟨rt, f1 * 256 + f2, r1 * 256 + r2, l1 * 256 + l2, []⟩ :: rs)
  | _ => none

/-- `handleReadFileRecord`. -/
def handleReadFileRecord (ds : DefaultDataStore) (req : PDU) : DefaultDataStore × PDU :=
  if req.data.length < 1 then
    (ds, newExceptionResponse req.functionCode ExceptionCodeIllegalDataValue)
  else
    let byteCount := req.data.getD 0 0
    if req.data.length ≠ 1 + byteCount then
      (ds, newExceptionResponse req.functionCode ExceptionCodeIllegalDataValue)
    else
      match parseFileRecordRequests (req.data.drop 1) with
      | none => (ds, newExceptionResponse req.functionCode ExceptionCodeIllegalDataValue)
      | some records =>
          match ds.ReadFileRecords records with
          | .error e => (ds, exceptionFor req e)
          | .ok resultRecords =>
              let responseData := resultRecords.flatMap
                (fun r =>
                  (1 + r.recordData.length * 2 % 256) % 256 :: r.referenceType ::
                    encodeUint16Slice r.recordData)
              (ds, ⟨req.functionCode, responseData.length % 256 :: responseData⟩)

/-- The sub-request parsing loop of `handleWriteFileRecord`: a 7-byte header
    followed by `2 * recordLength` data bytes per record. -/
def parseWriteFileRecordSubs (l : List Nat) : Option (List FileRecord) :=
  match l with
  | [] => some []
  | rt :: f1 :: f2 :: r1 :: r2 :: l1 :: l2 :: rest =>
      let recordLength := l1 * 256 + l2
      let dataByteCount := recordLength * 2
      if rest.length < dataByteCount then none
      else
        match decodeUint16Slice (rest.take dataByteCount) with
        | none => none
        | some recordData =>
            (parseWriteFileRecordSubs (rest.drop dataByteCount)).map
              (fun rs =>
                ⟨rt, f1 * 256 + f2, r1 * 256 + r2, recordLength, recordData⟩ :: rs)
  | _ => none
termination_by l.length
decreasing_by
  simp only [List.length_drop, List.length_cons]
  omega

/-- `handleWriteFileRecord`: echoes the request payload on success. -/
def handleWriteFileRecord (ds : DefaultDataStore) (req : PDU) : DefaultDataStore × PDU :=
  if req.data.length < 1 then
    (ds, newExceptionResponse req.functionCode ExceptionCodeIllegalDataValue)
  else
    let byteCount := req.data.getD 0 0
    if req.data.length ≠ 1 + byteCount then
      (ds, newExceptionResponse req.functionCode ExceptionCodeIllegalDataValue)
    else
      match parseWriteFileRecordSubs (req.data.drop 1) with
      | none => (ds, newExceptionResponse req.functionCode ExceptionCodeIllegalDataValue)
      | some records =>
          match ds.WriteFileRecords records with
          | (ds', some e) => (ds', exceptionFor req e)
          | (ds', none) => (ds', ⟨req.functionCode, req.data⟩)

/-- `handleReadFIFOQueue`: byte count `2 + 2 * fifoCount`, then the FIFO
    count, then the values. -/
def handleReadFIFOQueue (ds : DefaultDataStore) (req : PDU) : DefaultDataStore × PDU :=
  if req.data.length ≠ 2 then
    (ds, newExceptionResponse req.functionCode ExceptionCodeIllegalDataValue)
  else
    let address := decodeU16 req.data
    match ds.ReadFIFOQueue address with
    | .error e => (ds, exceptionFor req e)
    | .ok values =>
        if values.length > MaxFIFOCount then
          (ds, newExceptionResponse req.functionCode ExceptionCodeIllegalDataValue)
        else
          let fifoBytes := encodeUint16Slice values
          (ds, ⟨req.functionCode,
            encodeUint16 (2 + fifoBytes.length) ++
              encodeUint16 values.length ++ fifoBytes⟩)

/-- `handleReadDeviceIdentification`: basic stream response carrying vendor
    name, product code, and revision. -/
def handleReadDeviceIdentification (dev : DeviceIdentification)
    (ds : DefaultDataStore) (req : PDU) : DefaultDataStore × PDU :=
  if req.data.length < 3 then
    (ds, newExceptionResponse req.functionCode ExceptionCodeIllegalDataValue)
  else
    let readCode := req.data.getD 1 0
    let responseData :=
      [MEITypeDeviceIdentification, readCode, dev.conformityLevel, 0x00, 0x00, 0x03] ++
        (DeviceIDVendorName :: dev.vendorName.length % 256 :: dev.vendorName) ++
        (DeviceIDProductCode :: dev.productCode.length % 256 :: dev.productCode) ++
        (DeviceIDMajorMinorRevision :: dev.majorMinorRevision.length % 256 ::
          dev.majorMinorRevision)
    (ds, ⟨req.functionCode, responseData⟩)

/-- `handleEncapsulatedInterface`: only MEI type 0x0E is supported. -/
def handleEncapsulatedInterface (dev : DeviceIdentification)
    (ds : DefaultDataStore) (req : PDU) : DefaultDataStore × PDU :=
  if req.data.length < 1 then
    (ds, newExceptionResponse req.functionCode ExceptionCodeIllegalDataValue)
  else
    let meiType := req.data.getD 0 0
    if meiType = MEITypeDeviceIdentification then
      handleReadDeviceIdentification dev ds req
    else
      (ds, newExceptionResponse req.functionCode ExceptionCodeIllegalFunction)

/-- `ServerRequestHandler.HandleRequest`: the function-code dispatch switch;
    an unknown code yields an IllegalFunction exception. -/
def HandleRequest (dev : DeviceIdentification) (ds : DefaultDataStore) (req : PDU) :
    DefaultDataStore × PDU :=
  if req.functionCode = FuncCodeReadCoils then handleReadCoils ds req
  else if req.functionCode = FuncCodeReadDiscreteInputs then handleReadDiscreteInputs ds req
  else if req.functionCode = FuncCodeReadHoldingRegisters then handleReadHoldingRegisters ds req
  else if req.functionCode = FuncCodeReadInputRegisters then handleReadInputRegisters ds req
  else if req.functionCode = FuncCodeWriteSingleCoil then handleWriteSingleCoil ds req
  else if req.functionCode = FuncCodeWriteSingleRegister then handleWriteSingleRegister ds req
  else if req.functionCode = FuncCodeWriteMultipleCoils then handleWriteMultipleCoils ds req
  else if req.functionCode = FuncCodeWriteMultipleRegisters then handleWriteMultipleRegisters ds req
  else if req.functionCode = FuncCodeMaskWriteRegister then handleMaskWriteRegister ds req
  else if req.functionCode = FuncCodeReadWriteMultipleRegs then handleReadWriteMultipleRegisters ds req
  else if req.functionCode = FuncCodeReadExceptionStatus then handleReadExceptionStatus ds req
  else if req.functionCode = FuncCodeDiagnostic then handleDiagnostic ds req
  else if req.functionCode = FuncCodeGetCommEventCounter then handleGetCommEventCounter ds req
  else if req.functionCode = FuncCodeGetCommEventLog then handleGetCommEventLog ds req
  else if req.functionCode = FuncCodeReportServerID then handleReportServerID ds req
  else if req.functionCode = FuncCodeReadFileRecord then handleReadFileRecord ds req
  else if req.functionCode = FuncCodeWriteFileRecord then handleWriteFileRecord ds req
  else if req.functionCode = FuncCodeReadFIFOQueue then handleReadFIFOQueue ds req
  else if req.functionCode = FuncCodeEncapsulatedInterface then handleEncapsulatedInterface dev ds req
  else (ds, newExceptionResponse req.functionCode ExceptionCodeIllegalFunction)

/-- One iteration of `TCPServer.handleConnection` after a successful
    `receiveADU`: dispatch the request and send the MBAP-framed response.
    Returns the updated store and the bytes written back on the connection. -/
def serverConnectionStep (dev : DeviceIdentification) (ds : DefaultDataStore)
    (header : MBAPHeader) (requestPDU : PDU) : DefaultDataStore × List Nat :=
  let (ds', response) := HandleRequest dev ds requestPDU
  let responseHeader : MBAPHeader :=
    ⟨header.transactionID, MBAPProtocolID, (1 + response.size) % 65536, header.unitID⟩
  (ds', encodeMBAP responseHeader ++ response.bytes)

/-- The function codes with a dispatch entry in `HandleRequest`. -/
def handledFunctionCodes : List Nat :=
  [FuncCodeReadCoils, FuncCodeReadDiscreteInputs, FuncCodeReadHoldingRegisters,
   FuncCodeReadInputRegisters, FuncCodeWriteSingleCoil, FuncCodeWriteSingleRegister,
   FuncCodeWriteMultipleCoils, FuncCodeWriteMultipleRegisters,
   FuncCodeMaskWriteRegister, FuncCodeReadWriteMultipleRegs,
   FuncCodeReadExceptionStatus, FuncCodeDiagnostic, FuncCodeGetCommEventCounter,
   FuncCodeGetCommEventLog, FuncCodeReportServerID, FuncCodeReadFileRecord,
   FuncCodeWriteFileRecord, FuncCodeReadFIFOQueue, FuncCodeEncapsulatedInterface]

/-! ## Helper lemmas -/

theorem decodeU16_encode_append (v : Nat) (h : v < 65536) (rest : List Nat) :
    decodeU16 (encodeUint16 v ++ rest) = v := by
  simp [decodeU16, encodeUint16]
  omega

theorem drop_two_encode_append (v : Nat) (rest : List Nat) :
    (encodeUint16 v ++ rest).drop 2 = rest := by
  simp [encodeUint16]

theorem lrcFold_mod (data : List Nat) :
    ∀ a, data.foldl (fun lrc b => (lrc + b) % 256) a % 256 = (a + data.sum) % 256 := by
  induction data with
  | nil => intro a; simp
  | cons b t ih =>
      intro a
      simp only [List.foldl_cons, List.sum_cons]
      rw [ih]
      omega

theorem lrcFold_lt (data : List Nat) :
    ∀ a, a < 256 → data.foldl (fun lrc b => (lrc + b) % 256) a < 256 := by
  induction data with
  | nil => intro a ha; simpa using ha
  | cons b t ih =>
      intro a ha
      simp only [List.foldl_cons]
      exact ih _ (Nat.mod_lt _ (by norm_num))

/-- C7: for every byte sequence, the LRC computed by `calculateLRC` is the
    two's complement of the 8-bit sum: `(calculateLRC b + sum b) % 256 = 0`;
    in particular over `{0x11, 0x06, 0x00, 0x01, 0x00, 0x03}` the LRC is
    0xE5. -/
theorem lrc_twos_complement_spec :
    (∀ data : List Nat, (calculateLRC data + data.sum) % 256 = 0) ∧
    calculateLRC [0x11, 0x06, 0x00, 0x01, 0x00, 0x03] = 0xE5 := by
  constructor
  · intro data
    have h1 := lrcFold_mod data 0
    have h2 := lrcFold_lt data 0 (by norm_num)
    unfold calculateLRC
    omega
  · decide

theorem readHolding_single (ds : DefaultDataStore) (A : Nat)
    (h : A < ds.holdingRegisters.length) :
    ds.ReadHoldingRegisters A 1 = .ok [ds.holdingRegisters.getD A 0] := by
  unfold DefaultDataStore.ReadHoldingRegisters
  rw [if_neg (by omega), List.drop_eq_getElem_cons h]
  simp only [List.take_succ_cons, List.take_zero, List.getD_eq_getElem?_getD,
    List.getElem?_eq_getElem h, Option.getD_some]

theorem writeHolding_single (ds : DefaultDataStore) (A r : Nat)
    (h : A < ds.holdingRegisters.length) :
    ds.WriteHoldingRegisters A [r] =
      .ok { ds with holdingRegisters := ds.holdingRegisters.set A r } := by
  unfold DefaultDataStore.WriteHoldingRegisters
  rw [if_neg (by simp; omega)]
  rw [listSetRange, List.set_eq_take_cons_drop r h]
  simp

theorem dispatch_maskWrite (dev : DeviceIdentification) (ds : DefaultDataStore)
    (req : PDU) (h : req.functionCode = FuncCodeMaskWriteRegister) :
    HandleRequest dev ds req = handleMaskWriteRegister ds req := by
  simp [HandleRequest, h, FuncCodeReadCoils, FuncCodeReadDiscreteInputs,
    FuncCodeReadHoldingRegisters, FuncCodeReadInputRegisters,
    FuncCodeWriteSingleCoil, FuncCodeWriteSingleRegister,
    FuncCodeWriteMultipleCoils, FuncCodeWriteMultipleRegisters,
    FuncCodeMaskWriteRegister]

theorem dispatch_readFIFO (dev : DeviceIdentification) (ds : DefaultDataStore)
    (req : PDU) (h : req.functionCode = FuncCodeReadFIFOQueue) :
    HandleRequest dev ds req = handleReadFIFOQueue ds req := by
  simp [HandleRequest, h, FuncCodeReadCoils, FuncCodeReadDiscreteInputs,
    FuncCodeReadHoldingRegisters, FuncCodeReadInputRegisters,
    FuncCodeWriteSingleCoil, FuncCodeWriteSingleRegister,
    FuncCodeWriteMultipleCoils, FuncCodeWriteMultipleRegisters,
    FuncCodeMaskWriteRegister, FuncCodeReadWriteMultipleRegs,
    FuncCodeReadExceptionStatus, FuncCodeDiagnostic,
    FuncCodeGetCommEventCounter, FuncCodeGetCommEventLog,
    FuncCodeReportServerID, FuncCodeReadFileRecord, FuncCodeWriteFileRecord,
    FuncCodeReadFIFOQueue]

/-- C1: a MaskWriteRegister request through the server dispatcher leaves
    holding register A holding `(cur & AND) | (OR & ~AND)` and echoes the
    6-byte request payload under the request's function code. -/
theorem maskWriteRegister_dispatch_spec (dev : DeviceIdentification)
    (ds : DefaultDataStore) (A AND OR : Nat)
    (hA : A < 65536) (hAND : AND < 65536) (hOR : OR < 65536)
    (hlen : A < ds.holdingRegisters.length) :
    HandleRequest dev ds
        ⟨FuncCodeMaskWriteRegister,
          encodeUint16 A ++ encodeUint16 AND ++ encodeUint16 OR⟩ =
      ({ ds with
          holdingRegisters := ds.holdingRegisters.set A
            ((ds.holdingRegisters.getD A 0 &&& AND) ||| (OR &&& (AND ^^^ 0xFFFF))) },
       ⟨FuncCodeMaskWriteRegister,
         encodeUint16 A ++ encodeUint16 AND ++ encodeUint16 OR⟩) := by
  rw [dispatch_maskWrite dev ds _ rfl]
  unfold handleMaskWriteRegister
  rw [if_neg (by simp [encodeUint16])]
  simp only [List.append_assoc]
  have h4 : List.drop 4 (encodeUint16 A ++ (encodeUint16 AND ++ encodeUint16 OR)) =
      encodeUint16 OR := by
    simp [encodeUint16]
  rw [drop_two_encode_append, h4, decodeU16_encode_append A hA,
    decodeU16_encode_append AND hAND]
  have hOR' : decodeU16 (encodeUint16 OR) = OR := by
    simpa using decodeU16_encode_append OR hOR []
  rw [hOR', readHolding_single ds A hlen]
  simp only [List.getD_cons_zero]
  rw [writeHolding_single ds A _ hlen]

/-- Witness for C1 at the spec's concrete scenario: register 40 holding
    0x0012, AND = 0x00F2, OR = 0x0025; the post-state register is 0x0017 and
    the response echoes the request. -/
theorem maskWriteRegister_dispatch_witness :
    HandleRequest defaultDeviceInfo
        { coils := [], discreteInputs := [],
          holdingRegisters := List.replicate 40 0 ++ [0x0012],
          inputRegisters := [], fileRecords := fun _ => none,
          fifoQueues := fun _ => none, exceptionStatus := 0,
          diagnosticData := {}, commEventLog := [] }
        ⟨FuncCodeMaskWriteRegister,
          encodeUint16 40 ++ encodeUint16 0x00F2 ++ encodeUint16 0x0025⟩ =
      ({ coils := [], discreteInputs := [],
         holdingRegisters := List.replicate 40 0 ++ [0x0017],
         inputRegisters := [], fileRecords := fun _ => none,
         fifoQueues := fun _ => none, exceptionStatus := 0,
         diagnosticData := {}, commEventLog := [] },
       ⟨FuncCodeMaskWriteRegister,
         encodeUint16 40 ++ encodeUint16 0x00F2 ++ encodeUint16 0x0025⟩) := by
  have h := maskWriteRegister_dispatch_spec defaultDeviceInfo
    { coils := [], discreteInputs := [],
      holdingRegisters := List.replicate 40 0 ++ [0x0012],
      inputRegisters := [], fileRecords := fun _ => none,
      fifoQueues := fun _ => none, exceptionStatus := 0,
      diagnosticData := {}, commEventLog := [] }
    40 0x00F2 0x0025 (by norm_num) (by norm_num) (by norm_num) (by simp)
  rw [h]
  rfl

/-- C10: reading the FIFO queue of an address with no stored queue yields
    `ok []` from the default store, and the server answers with a normal
    response declaring byte count 2 and FIFO count 0, not an exception. -/
theorem readFIFOQueue_empty_spec (dev : DeviceIdentification)
    (ds : DefaultDataStore) (A : Nat) (hA : A < 65536)
    (h : ds.fifoQueues A = none) :
    ds.ReadFIFOQueue A = .ok [] ∧
    HandleRequest dev ds ⟨FuncCodeReadFIFOQueue, encodeUint16 A⟩ =
      (ds, ⟨FuncCodeReadFIFOQueue, [0x00, 0x02, 0x00, 0x00]⟩) := by
  have hq : ds.ReadFIFOQueue A = .ok [] := by
    unfold DefaultDataStore.ReadFIFOQueue
    rw [h]
  refine ⟨hq, ?_⟩
  rw [dispatch_readFIFO dev ds _ rfl]
  unfold handleReadFIFOQueue
  rw [if_neg (by simp [encodeUint16])]
  have hd : decodeU16 (encodeUint16 A) = A := by
    simpa using decodeU16_encode_append A hA []
  rw [hd]
  simp only [hq]
  simp [encodeUint16Slice, encodeUint16, MaxFIFOCount]

/-- Witness for C10: a fresh empty data store, address 7. -/
theorem readFIFOQueue_empty_witness :
    HandleRequest defaultDeviceInfo (NewDefaultDataStore 0 0 0 0)
        ⟨FuncCodeReadFIFOQueue, encodeUint16 7⟩ =
      (NewDefaultDataStore 0 0 0 0,
       ⟨FuncCodeReadFIFOQueue, [0x00, 0x02, 0x00, 0x00]⟩) :=
  (readFIFOQueue_empty_spec defaultDeviceInfo (NewDefaultDataStore 0 0 0 0) 7
    (by norm_num) rfl).2

theorem readRequestBuilder_eq (fc A Q maxQ : Nat)
    (hv : validateQuantity fc Q = decide (1 ≤ Q ∧ Q ≤ maxQ)) :
    readRequestBuilder fc A Q =
      if 1 ≤ Q ∧ Q ≤ maxQ ∧ A + Q ≤ 65536 then
        some ⟨fc, encodeUint16 A ++ encodeUint16 Q⟩
      else none := by
  unfold readRequestBuilder validateAddress
  rw [hv]
  by_cases h1 : 1 ≤ Q ∧ Q ≤ maxQ
  · by_cases h2 : A + Q ≤ 0x10000
    · rw [if_neg (by simp [h1]), if_neg (by simp [h2]), if_pos ⟨h1.1, h1.2, h2⟩]
    · rw [if_neg (by simp [h1]), if_pos (by simp [h2]), if_neg (by tauto)]
  · rw [if_pos (by simp [h1]), if_neg (by tauto)]

/-- C4: each read/write request builder fails exactly when the quantity is
    outside its per-function-code limit or `address + quantity > 65536`, and
    otherwise produces a PDU carrying the function code and the big-endian
    address and quantity. -/
theorem builder_quantity_address_spec :
    ∀ (A Q : Nat) (bits : List Bool) (regs : List Nat),
      ((ReadCoilsRequest A Q = none ↔
          (¬(1 ≤ Q ∧ Q ≤ 2000) ∨ A + Q > 65536)) ∧
        ∀ p, ReadCoilsRequest A Q = some p →
          p = ⟨FuncCodeReadCoils, encodeUint16 A ++ encodeUint16 Q⟩) ∧
      ((ReadDiscreteInputsRequest A Q = none ↔
          (¬(1 ≤ Q ∧ Q ≤ 2000) ∨ A + Q > 65536)) ∧
        ∀ p, ReadDiscreteInputsRequest A Q = some p →
          p = ⟨FuncCodeReadDiscreteInputs, encodeUint16 A ++ encodeUint16 Q⟩) ∧
      ((ReadHoldingRegistersRequest A Q = none ↔
          (¬(1 ≤ Q ∧ Q ≤ 125) ∨ A + Q > 65536)) ∧
        ∀ p, ReadHoldingRegistersRequest A Q = some p →
          p = ⟨FuncCodeReadHoldingRegisters, encodeUint16 A ++ encodeUint16 Q⟩) ∧
      ((ReadInputRegistersRequest A Q = none ↔
          (¬(1 ≤ Q ∧ Q ≤ 125) ∨ A + Q > 65536)) ∧
        ∀ p, ReadInputRegistersRequest A Q = some p →
          p = ⟨FuncCodeReadInputRegisters, encodeUint16 A ++ encodeUint16 Q⟩) ∧
      (bits.length < 65536 →
        ((WriteMultipleCoilsRequest A bits = none ↔
            (¬(1 ≤ bits.length ∧ bits.length ≤ 1968) ∨ A + bits.length > 65536)) ∧
          ∀ p, WriteMultipleCoilsRequest A bits = some p →
            p.functionCode = FuncCodeWriteMultipleCoils ∧
            p.data.take 4 = encodeUint16 A ++ encodeUint16 bits.length)) ∧
      (regs.length < 65536 →
        ((WriteMultipleRegistersRequest A regs = none ↔
            (¬(1 ≤ regs.length ∧ regs.length ≤ 123) ∨ A + regs.length > 65536)) ∧
          ∀ p, WriteMultipleRegistersRequest A regs = some p →
            p.functionCode = FuncCodeWriteMultipleRegisters ∧
            p.data.take 4 = encodeUint16 A ++ encodeUint16 regs.length)) := by
  intro A Q bits regs
  have hrc := readRequestBuilder_eq FuncCodeReadCoils A Q 2000
    (by simp [validateQuantity, MaxReadCoils, FuncCodeReadCoils,
      FuncCodeReadDiscreteInputs])
  have hrd := readRequestBuilder_eq FuncCodeReadDiscreteInputs A Q 2000
    (by simp [validateQuantity, MaxReadCoils, FuncCodeReadCoils,
      FuncCodeReadDiscreteInputs])
  have hrh := readRequestBuilder_eq FuncCodeReadHoldingRegisters A Q 125
    (by simp [validateQuantity, MaxReadHoldingRegs, FuncCodeReadCoils,
      FuncCodeReadDiscreteInputs, FuncCodeReadHoldingRegisters,
      FuncCodeReadInputRegisters])
  have hri := readRequestBuilder_eq FuncCodeReadInputRegisters A Q 125
    (by simp [validateQuantity, MaxReadHoldingRegs, FuncCodeReadCoils,
      FuncCodeReadDiscreteInputs, FuncCodeReadHoldingRegisters,
      FuncCodeReadInputRegisters])
  refine ⟨⟨?_, ?_⟩, ⟨?_, ?_⟩, ⟨?_, ?_⟩, ⟨?_, ?_⟩, ?_, ?_⟩
  · rw [ReadCoilsRequest, hrc]
    split_ifs with hc
    · simp only [reduceCtorEq, false_iff]
      omega
    · simp only [true_iff]
      omega
  · intro p hp
    rw [ReadCoilsRequest, hrc] at hp
    split_ifs at hp
    exact (Option.some_inj.mp hp).symm
  · rw [ReadDiscreteInputsRequest, hrd]
    split_ifs with hc
    · simp only [reduceCtorEq, false_iff]
      omega
    · simp only [true_iff]
      omega
  · intro p hp
    rw [ReadDiscreteInputsRequest, hrd] at hp
    split_ifs at hp
    exact (Option.some_inj.mp hp).symm
  · rw [ReadHoldingRegistersRequest, hrh]
    split_ifs with hc
    · simp only [reduceCtorEq, false_iff]
      omega
    · simp only [true_iff]
      omega
  · intro p hp
    rw [ReadHoldingRegistersRequest, hrh] at hp
    split_ifs at hp
    exact (Option.some_inj.mp hp).symm
  · rw [ReadInputRegistersRequest, hri]
    split_ifs with hc
    · simp only [reduceCtorEq, false_iff]
      omega
    · simp only [true_iff]
      omega
  · intro p hp
    rw [ReadInputRegistersRequest, hri] at hp
    split_ifs at hp
    exact (Option.some_inj.mp hp).symm
  · intro hb
    have hm : bits.length % 65536 = bits.length := Nat.mod_eq_of_lt hb
    constructor
    · unfold WriteMultipleCoilsRequest
      simp only [hm]
      rw [show validateQuantity FuncCodeWriteMultipleCoils bits.length =
        decide (1 ≤ bits.length ∧ bits.length ≤ 1968) by
          simp [validateQuantity, MaxWriteMultipleCoils, FuncCodeReadCoils,
            FuncCodeReadDiscreteInputs, FuncCodeReadHoldingRegisters,
            FuncCodeReadInputRegisters, FuncCodeWriteMultipleCoils]]
      unfold validateAddress
      by_cases h1 : 1 ≤ bits.length ∧ bits.length ≤ 1968
      · by_cases h2 : A + bits.length ≤ 0x10000
        · rw [if_neg (by simp [h1]), if_neg (by simp [h2])]
          simp only [reduceCtorEq, false_iff]
          omega
        · rw [if_neg (by simp [h1]), if_pos (by simp [h2])]
          simp only [true_iff]
          omega
      · rw [if_pos (by simp [h1])]
        simp only [true_iff]
        omega
    · intro p hp
      unfold WriteMultipleCoilsRequest at hp
      simp only [hm] at hp
      split_ifs at hp
      have := (Option.some_inj.mp hp).symm
      subst this
      exact ⟨rfl, by simp [encodeUint16]⟩
  · intro hb
    have hm : regs.length % 65536 = regs.length := Nat.mod_eq_of_lt hb
    constructor
    · unfold WriteMultipleRegistersRequest
      simp only [hm]
      rw [show validateQuantity FuncCodeWriteMultipleRegisters regs.length =
        decide (1 ≤ regs.length ∧ regs.length ≤ 123) by
          simp [validateQuantity, MaxWriteMultipleRegs, FuncCodeReadCoils,
            FuncCodeReadDiscreteInputs, FuncCodeReadHoldingRegisters,
            FuncCodeReadInputRegisters, FuncCodeWriteMultipleCoils,
            FuncCodeWriteMultipleRegisters]]
      unfold validateAddress
      by_cases h1 : 1 ≤ regs.length ∧ regs.length ≤ 123
      · by_cases h2 : A + regs.length ≤ 0x10000
        · rw [if_neg (by simp [h1]), if_neg (by simp [h2])]
          simp only [reduceCtorEq, false_iff]
          omega
        · rw [if_neg (by simp [h1]), if_pos (by simp [h2])]
          simp only [true_iff]
          omega
      · rw [if_pos (by simp [h1])]
        simp only [true_iff]
        omega
    · intro p hp
      unfold WriteMultipleRegistersRequest at hp
      simp only [hm] at hp
      split_ifs at hp
      have := (Option.some_inj.mp hp).symm
      subst this
      exact ⟨rfl, by simp [encodeUint16]⟩

/-- Witness for C4: quantity 126 is rejected for holding-register reads, and
    a write of two coils at address 3 passes validation. -/
theorem builder_quantity_address_witness :
    (ReadHoldingRegistersRequest 0 126 = none ↔
      (¬((1:Nat) ≤ 126 ∧ (126:Nat) ≤ 125) ∨ (0:Nat) + 126 > 65536)) ∧
    (WriteMultipleCoilsRequest 3 [true, false] = none ↔
      (¬(1 ≤ [true, false].length ∧ [true, false].length ≤ 1968) ∨
        3 + [true, false].length > 65536)) := by
  have h := builder_quantity_address_spec 0 126 [true, false] []
  have h2 := builder_quantity_address_spec 3 126 [true, false] []
  exact ⟨h.2.2.1.1, (h2.2.2.2.2.1 (by norm_num)).1⟩

theorem sendLoop_zero (env : ClientEnv) (rc attempt : Nat)
    (lastErr : Option LastErr) (sends : Nat) :
    sendLoop env rc 0 attempt lastErr sends =
      (.error (.requestFailed (rc + 1) lastErr), sends) := rfl

theorem sendLoop_step_fail (env : ClientEnv) (rc r attempt : Nat)
    (lastErr : Option LastErr) (sends : Nat) (er : Nat)
    (hc : env.isConnected attempt = true)
    (he : env.send attempt = .error er) :
    sendLoop env rc (r + 1) attempt lastErr sends =
      sendLoop env rc r (attempt + 1) (some (.sendFail er)) (sends + 1) := by
  simp only [sendLoop]
  rw [if_neg (by simp [hc])]
  rw [hc, he]

theorem sendLoop_step_ok (env : ClientEnv) (rc r attempt : Nat)
    (lastErr : Option LastErr) (sends : Nat) (resp : PDU)
    (hc : env.isConnected attempt = true)
    (he : env.send attempt = .ok resp) :
    sendLoop env rc (r + 1) attempt lastErr sends = (.ok resp, sends + 1) := by
  simp only [sendLoop]
  rw [if_neg (by simp [hc])]
  rw [hc, he]

theorem sendLoop_all_fail (env : ClientEnv) (rc : Nat) (e : Nat → Nat)
    (hconn : ∀ k, env.isConnected k = true)
    (hsend : ∀ k, env.send k = .error (e k)) :
    ∀ remaining attempt (lastErr : Option LastErr) (sends : Nat),
      sendLoop env rc (remaining + 1) attempt lastErr sends =
        (.error (.requestFailed (rc + 1) (some (.sendFail (e (attempt + remaining))))),
         sends + (remaining + 1)) := by
  intro remaining
  induction remaining with
  | zero =>
      intro attempt lastErr sends
      rw [sendLoop_step_fail env rc 0 attempt lastErr sends (e attempt)
        (hconn attempt) (hsend attempt), sendLoop_zero]
      simp
  | succ r ih =>
      intro attempt lastErr sends
      rw [sendLoop_step_fail env rc (r + 1) attempt lastErr sends (e attempt)
        (hconn attempt) (hsend attempt), ih (attempt + 1)]
      have h1 : attempt + 1 + r = attempt + (r + 1) := by omega
      have h2 : sends + 1 + (r + 1) = sends + (r + 1 + 1) := by omega
      rw [h1, h2]

theorem sendLoop_success (env : ClientEnv) (rc : Nat) (e : Nat → Nat)
    (j : Nat) (resp : PDU)
    (hconn : ∀ k, env.isConnected k = true)
    (hfail : ∀ k, k < j → env.send k = .error (e k))
    (hok : env.send j = .ok resp) :
    ∀ remaining attempt (lastErr : Option LastErr) (sends : Nat),
      attempt ≤ j → j < attempt + remaining →
      sendLoop env rc remaining attempt lastErr sends =
        (.ok resp, sends + (j - attempt) + 1) := by
  intro remaining
  induction remaining with
  | zero => intro attempt lastErr sends h1 h2; omega
  | succ r ih =>
      intro attempt lastErr sends h1 h2
      by_cases hj : attempt = j
      · subst hj
        rw [sendLoop_step_ok env rc r attempt lastErr sends resp
          (hconn attempt) hok]
        simp
      · rw [sendLoop_step_fail env rc r attempt lastErr sends (e attempt)
          (hconn attempt) (hfail attempt (by omega))]
        rw [ih (attempt + 1) (some (.sendFail (e attempt))) (sends + 1)
          (by omega) (by omega)]
        have h3 : sends + 1 + (j - (attempt + 1)) + 1 = sends + (j - attempt) + 1 := by
          omega
        rw [h3]

/-- C5: while the transport stays connected, `Client.sendRequest` invokes
    `SendRequest` exactly `retryCount + 1` times when every attempt fails,
    surfacing one error wrapping the last underlying error and reporting
    `retryCount + 1` attempts; a successful attempt returns immediately with
    no further invocations. -/
theorem client_retry_spec (env : ClientEnv) (retryCount : Nat) (e : Nat → Nat)
    (j : Nat) (resp : PDU) :
    ((∀ k, env.isConnected k = true) → (∀ k, env.send k = .error (e k)) →
      clientSendRequest env retryCount =
        (.error (.requestFailed (retryCount + 1) (some (.sendFail (e retryCount)))),
         retryCount + 1)) ∧
    ((∀ k, env.isConnected k = true) → (∀ k, k < j → env.send k = .error (e k)) →
      env.send j = .ok resp → j ≤ retryCount →
      clientSendRequest env retryCount = (.ok resp, j + 1)) := by
  constructor
  · intro hconn hsend
    unfold clientSendRequest
    rw [sendLoop_all_fail env retryCount e hconn hsend retryCount 0 none 0]
    simp
  · intro hconn hfail hok hj
    unfold clientSendRequest
    rw [sendLoop_success env retryCount e j resp hconn hfail hok
      (retryCount + 1) 0 none 0 (by omega) (by omega)]
    simp

/-- Witness for C5: a transport that always fails with error code 7 under
    `retryCount = 2` produces three attempts and one terminal error. -/
theorem client_retry_witness :
    clientSendRequest
        { isConnected := fun _ => true, autoReconnect := false,
          connectErr := fun _ => none, send := fun _ => .error 7 } 2 =
      (.error (.requestFailed 3 (some (.sendFail 7))), 3) := by
  have h := (client_retry_spec
    { isConnected := fun _ => true, autoReconnect := false,
      connectErr := fun _ => none, send := fun _ => .error 7 }
    2 (fun _ => 7) 0 ⟨0, []⟩).1 (fun _ => rfl) (fun _ => rfl)
  simpa using h

theorem tcpSendRequest_connected (t : Nat) (sid : Nat) (req : PDU)
    (recv : Option (MBAPHeader × PDU)) :
    (tcpSendRequest ⟨true, t⟩ sid req recv).1 = ⟨true, tcpNextTxID t⟩ ∧
    (tcpSendRequest ⟨true, t⟩ sid req recv).2.1 =
      some ⟨t, MBAPProtocolID, (1 + req.bytes.length) % 65536, sid⟩ := by
  unfold tcpSendRequest
  rw [if_neg (by simp)]
  cases recv with
  | none => exact ⟨rfl, rfl⟩
  | some hp =>
      obtain ⟨rh, rp⟩ := hp
      dsimp only
      constructor <;> split_ifs <;> rfl

theorem tcpNextTxID_bounds (t : Nat) :
    1 ≤ tcpNextTxID t ∧ tcpNextTxID t ≤ 65535 := by
  simp only [tcpNextTxID]
  have h := Nat.mod_lt (t + 1) (show 0 < 65536 by norm_num)
  split_ifs with h0 <;> omega

theorem tcpState_eta (st : TCPState) (h : st.connected = true) :
    st = ⟨true, st.transactionID⟩ := by
  cases st
  simp_all

theorem tcpRunState_inv (recvs : Nat → Option (MBAPHeader × PDU))
    (reqs : Nat → PDU) (sid : Nat) : ∀ n,
    (tcpRunState recvs reqs sid n).connected = true ∧
    1 ≤ (tcpRunState recvs reqs sid n).transactionID ∧
    (tcpRunState recvs reqs sid n).transactionID ≤ 65535 := by
  intro n
  induction n with
  | zero =>
      refine ⟨rfl, ?_, ?_⟩ <;> simp [tcpRunState, tcpInitialState]
  | succ n ih =>
      have hst := tcpState_eta _ ih.1
      simp only [tcpRunState]
      rw [hst, (tcpSendRequest_connected _ sid (reqs n) (recvs n)).1]
      exact ⟨rfl, tcpNextTxID_bounds _⟩

theorem tcpSentTxID_eq (recvs : Nat → Option (MBAPHeader × PDU))
    (reqs : Nat → PDU) (sid n : Nat) :
    tcpSentTxID recvs reqs sid n = (tcpRunState recvs reqs sid n).transactionID := by
  have hst := tcpState_eta _ (tcpRunState_inv recvs reqs sid n).1
  unfold tcpSentTxID
  rw [hst, (tcpSendRequest_connected _ sid (reqs n) (recvs n)).2]

theorem tcpRun_txid_succ (recvs : Nat → Option (MBAPHeader × PDU))
    (reqs : Nat → PDU) (sid n : Nat) :
    (tcpRunState recvs reqs sid (n + 1)).transactionID =
      tcpNextTxID ((tcpRunState recvs reqs sid n).transactionID) := by
  have hst := tcpState_eta _ (tcpRunState_inv recvs reqs sid n).1
  simp only [tcpRunState]
  rw [hst, (tcpSendRequest_connected _ sid (reqs n) (recvs n)).1]

/-- C8: over any run of `SendRequest` calls on one TCP transport, each sent
    MBAP transaction ID is the previous one plus one modulo 2^16 with 0
    skipped (replaced by 1), and no request is ever sent with transaction
    ID 0. -/
theorem tcp_transaction_id_spec (recvs : Nat → Option (MBAPHeader × PDU))
    (reqs : Nat → PDU) (sid : Nat) : ∀ n,
    (tcpSentTxID recvs reqs sid (n + 1) =
      (if (tcpSentTxID recvs reqs sid n + 1) % 65536 = 0 then 1
       else (tcpSentTxID recvs reqs sid n + 1) % 65536)) ∧
    tcpSentTxID recvs reqs sid n ≠ 0 := by
  intro n
  constructor
  · rw [tcpSentTxID_eq, tcpSentTxID_eq, tcpRun_txid_succ]
    rfl
  · rw [tcpSentTxID_eq]
    have h := (tcpRunState_inv recvs reqs sid n).2.1
    omega

/-- C3 counterexample: a response whose transaction ID differs from the sent
    one makes `SendRequest` return an error, yet the transport is still
    connected afterwards — the connection is not closed as the claim
    states. -/
theorem tcp_mismatch_close_counterexample :
    (tcpSendRequest tcpInitialState 1 ⟨3, [0, 0, 0, 1]⟩
        (some (⟨99, 0, 2, 1⟩, ⟨3, [2, 0, 0]⟩))).2.2 =
      .error .transactionIDMismatch ∧
    (tcpSendRequest tcpInitialState 1 ⟨3, [0, 0, 0, 1]⟩
        (some (⟨99, 0, 2, 1⟩, ⟨3, [2, 0, 0]⟩))).1.connected = true := by
  exact ⟨rfl, rfl⟩

/-- C3 amended: on a transaction-ID, protocol-ID, or unit-ID mismatch,
    `SendRequest` surfaces an error but does not close the connection — the
    transport remains connected. -/
theorem tcp_mismatch_amended_spec (st : TCPState) (sid : Nat) (req : PDU)
    (rh : MBAPHeader) (rp : PDU) (hc : st.connected = true)
    (hm : rh.transactionID ≠ st.transactionID ∨ rh.protocolID ≠ MBAPProtocolID ∨
      rh.unitID ≠ sid) :
    (∃ err, (tcpSendRequest st sid req (some (rh, rp))).2.2 = .error err) ∧
    (tcpSendRequest st sid req (some (rh, rp))).1.connected = true := by
  refine ⟨?_, ?_⟩
  · rcases hm with h | h | h
    · exact ⟨.transactionIDMismatch, by simp [tcpSendRequest, hc, h]⟩
    · by_cases h1 : rh.transactionID ≠ st.transactionID
      · exact ⟨.transactionIDMismatch, by simp [tcpSendRequest, hc, h1]⟩
      · exact ⟨.protocolIDMismatch, by simp [tcpSendRequest, hc, h1, h]⟩
    · by_cases h1 : rh.transactionID ≠ st.transactionID
      · exact ⟨.transactionIDMismatch, by simp [tcpSendRequest, hc, h1]⟩
      · by_cases h2 : rh.protocolID ≠ MBAPProtocolID
        · exact ⟨.protocolIDMismatch, by simp [tcpSendRequest, hc, h1, h2]⟩
        · exact ⟨.unitIDMismatch, by simp [tcpSendRequest, hc, h1, h2, h]⟩
  · simp only [tcpSendRequest]
    rw [if_neg (by simp [hc])]
    split_ifs <;> simp [hc]

/-- Witness for the amended C3: a unit-ID mismatch on a fresh transport. -/
theorem tcp_mismatch_amended_witness :
    (∃ err, (tcpSendRequest tcpInitialState 1 ⟨3, []⟩
        (some (⟨1, 0, 2, 9⟩, ⟨3, []⟩))).2.2 = .error err) ∧
    (tcpSendRequest tcpInitialState 1 ⟨3, []⟩
        (some (⟨1, 0, 2, 9⟩, ⟨3, []⟩))).1.connected = true :=
  tcp_mismatch_amended_spec tcpInitialState 1 ⟨3, []⟩ ⟨1, 0, 2, 9⟩ ⟨3, []⟩ rfl
    (Or.inr (Or.inr (by norm_num)))

/-- C2 counterexample: a well-formed MBAP request with UnitId 0 (broadcast,
    here a WriteSingleRegister) still makes the TCP server write response
    bytes back on the connection — the claim that nothing is written is
    false. -/
theorem broadcast_no_reply_counterexample :
    (serverConnectionStep defaultDeviceInfo (NewDefaultDataStore 1 1 1 1)
        ⟨1, 0, 6, 0⟩ ⟨FuncCodeWriteSingleRegister, [0, 0, 0, 5]⟩).2 ≠ [] := by
  decide

/-- C2 amended: for a request with UnitId 0 the server performs the
    operation on the data store and writes the full MBAP-framed response
    (echoing the transaction ID and unit ID 0) — it does not suppress the
    reply. -/
theorem broadcast_reply_amended_spec (dev : DeviceIdentification)
    (ds : DefaultDataStore) (header : MBAPHeader) (reqPDU : PDU)
    (h : header.unitID = 0) :
    serverConnectionStep dev ds header reqPDU =
      ((HandleRequest dev ds reqPDU).1,
        encodeMBAP ⟨header.transactionID, MBAPProtocolID,
          (1 + (HandleRequest dev ds reqPDU).2.size) % 65536, 0⟩ ++
          (HandleRequest dev ds reqPDU).2.bytes) ∧
    (serverConnectionStep dev ds header reqPDU).2 ≠ [] := by
  have hstep : serverConnectionStep dev ds header reqPDU =
      ((HandleRequest dev ds reqPDU).1,
        encodeMBAP ⟨header.transactionID, MBAPProtocolID,
          (1 + (HandleRequest dev ds reqPDU).2.size) % 65536, 0⟩ ++
          (HandleRequest dev ds reqPDU).2.bytes) := by
    unfold serverConnectionStep
    rw [h]
  refine ⟨hstep, ?_⟩
  rw [hstep]
  simp [encodeMBAP, encodeUint16]

/-- Witness for the amended C2: a broadcast WriteSingleCoil on a one-point
    store. -/
theorem broadcast_reply_amended_witness :
    serverConnectionStep defaultDeviceInfo (NewDefaultDataStore 1 1 1 1)
        ⟨5, 0, 6, 0⟩ ⟨FuncCodeWriteSingleCoil, [0, 0, 0xFF, 0]⟩ =
      ((HandleRequest defaultDeviceInfo (NewDefaultDataStore 1 1 1 1)
          ⟨FuncCodeWriteSingleCoil, [0, 0, 0xFF, 0]⟩).1,
        encodeMBAP ⟨5, MBAPProtocolID,
          (1 + (HandleRequest defaultDeviceInfo (NewDefaultDataStore 1 1 1 1)
            ⟨FuncCodeWriteSingleCoil, [0, 0, 0xFF, 0]⟩).2.size) % 65536, 0⟩ ++
          (HandleRequest defaultDeviceInfo (NewDefaultDataStore 1 1 1 1)
            ⟨FuncCodeWriteSingleCoil, [0, 0, 0xFF, 0]⟩).2.bytes) ∧
    (serverConnectionStep defaultDeviceInfo (NewDefaultDataStore 1 1 1 1)
        ⟨5, 0, 6, 0⟩ ⟨FuncCodeWriteSingleCoil, [0, 0, 0xFF, 0]⟩).2 ≠ [] :=
  broadcast_reply_amended_spec defaultDeviceInfo (NewDefaultDataStore 1 1 1 1)
    ⟨5, 0, 6, 0⟩ ⟨FuncCodeWriteSingleCoil, [0, 0, 0xFF, 0]⟩ rfl

theorem bit_set_or (res : List Nat) (i p : Nat) (hi : i / 8 < res.length) :
    ((res.set (i / 8) (res.getD (i / 8) 0 ||| (1 <<< (i % 8)))).getD (p / 8) 0).testBit (p % 8) =
      ((res.getD (p / 8) 0).testBit (p % 8) || decide (p = i)) := by
  by_cases hj : i / 8 = p / 8
  · have hj' := hj
    simp only [List.getD_eq_getElem?_getD, List.getElem?_set, if_pos hj, if_pos hi,
      Option.getD_some]
    rw [Nat.testBit_or, Nat.shiftLeft_eq, one_mul, Nat.testBit_two_pow, hj]
    congr 1
    rw [decide_eq_decide]
    omega
  · simp only [List.getD_eq_getElem?_getD, List.getElem?_set, if_neg hj]
    have hne : p ≠ i := by omega
    simp [hne]

theorem encodeBoolLoop_length (values : List Bool) :
    ∀ (i : Nat) (res : List Nat), (encodeBoolLoop values i res).length = res.length := by
  induction values with
  | nil => intro i res; rfl
  | cons v rest ih =>
      intro i res
      simp only [encodeBoolLoop]
      rw [ih]
      cases v <;> simp

theorem encodeBoolLoop_bits (values : List Bool) :
    ∀ (i : Nat) (res : List Nat),
      i + values.length ≤ 8 * res.length →
      (∀ q, i ≤ q → ((res.getD (q / 8) 0).testBit (q % 8)) = false) →
      ∀ p, ((encodeBoolLoop values i res).getD (p / 8) 0).testBit (p % 8) =
        (if p < i then (res.getD (p / 8) 0).testBit (p % 8)
         else values.getD (p - i) false) := by
  induction values with
  | nil =>
      intro i res _ hclear p
      simp only [encodeBoolLoop]
      split_ifs with hp
      · rfl
      · rw [hclear p (by omega)]
        simp
  | cons v rest ih =>
      intro i res hlen hclear p
      have hlen' : i + (rest.length + 1) ≤ 8 * res.length := by
        simpa using hlen
      have hi8 : i / 8 < res.length := by omega
      simp only [encodeBoolLoop]
      cases v with
      | false =>
          rw [if_neg (by simp)]
          rw [ih (i + 1) res (by omega) (fun q hq => hclear q (by omega)) p]
          by_cases hp1 : p < i
          · rw [if_pos (by omega), if_pos hp1]
          · by_cases hp2 : p = i
            · subst hp2
              rw [if_pos (by omega), if_neg (by omega), hclear p le_rfl]
              simp
            · rw [if_neg (by omega), if_neg hp1]
              have hpi : p - i = (p - (i + 1)) + 1 := by omega
              rw [hpi]
              simp [List.getD_cons_succ]
      | true =>
          rw [if_pos rfl]
          rw [ih (i + 1) _ (by simp; omega) ?hclear2 p]
          case hclear2 =>
            intro q hq
            rw [bit_set_or res i q hi8, hclear q (by omega)]
            simp [show q ≠ i by omega]
          by_cases hp1 : p < i
          · rw [if_pos (by omega), if_pos hp1, bit_set_or res i p hi8]
            simp [show p ≠ i by omega]
          · by_cases hp2 : p = i
            · rw [if_pos (by omega), if_neg (by omega), bit_set_or res i p hi8,
                hclear p (by omega)]
              simp [hp2]
            · rw [if_neg (by omega), if_neg hp1]
              have hpi : p - i = (p - (i + 1)) + 1 := by omega
              rw [hpi]
              simp [List.getD_cons_succ]

theorem EncodeBoolSlice_length (values : List Bool) :
    (EncodeBoolSlice values).length = (values.length + 7) / 8 := by
  unfold EncodeBoolSlice
  split_ifs with h
  · simp [h]
  · rw [encodeBoolLoop_length]
    simp

theorem EncodeBoolSlice_bits (values : List Bool) (p : Nat) :
    ((EncodeBoolSlice values).getD (p / 8) 0).testBit (p % 8) =
      values.getD p false := by
  unfold EncodeBoolSlice
  split_ifs with h
  · have hv : values = [] := List.length_eq_zero.mp h
    subst hv
    simp
  · rw [encodeBoolLoop_bits values 0 _ (by simp [List.length_replicate]; omega)
      ?hc p]
    case hc =>
      intro q _
      simp only [List.getD_eq_getElem?_getD, List.getElem?_replicate]
      split_ifs <;> simp
    simp

theorem and_shift_ne_zero (x b : Nat) :
    (x &&& (1 <<< b) != 0) = x.testBit b := by
  rw [Nat.shiftLeft_eq, one_mul, Nat.and_two_pow]
  cases h : x.testBit b <;> simp [h, (Nat.two_pow_pos b).ne']

/-- C6: the encoder places item `i` in bit `i % 8` of byte `i / 8` (with all
    trailing bits false), and decoding the packed bytes with the original
    count restores the sequence exactly. -/
theorem bool_pack_roundtrip_spec (values : List Bool) (n : Nat)
    (hn : values.length = n) (h1 : 1 ≤ n) (h2 : n ≤ 2000) :
    (∀ i, ((EncodeBoolSlice values).getD (i / 8) 0).testBit (i % 8) =
      values.getD i false) ∧
    DecodeBoolSlice (EncodeBoolSlice values) n = values := by
  refine ⟨fun i => EncodeBoolSlice_bits values i, ?_⟩
  subst hn
  unfold DecodeBoolSlice
  apply List.ext_getElem
  · simp
  · intro i hi1 hi2
    simp only [List.getElem_map, List.getElem_range]
    have hlen8 : values.length ≤ (EncodeBoolSlice values).length * 8 := by
      rw [EncodeBoolSlice_length]
      omega
    have hiv : i < values.length := by simpa using hi2
    rw [if_pos (by omega), and_shift_ne_zero, EncodeBoolSlice_bits]
    simp [List.getD_eq_getElem?_getD, List.getElem?_eq_getElem hiv]

/-- Witness for C6: packing and unpacking `[true, false, true]`. -/
theorem bool_pack_roundtrip_witness :
    DecodeBoolSlice (EncodeBoolSlice [true, false, true]) 3 =
      [true, false, true] :=
  (bool_pack_roundtrip_spec [true, false, true] 3 rfl (by norm_num)
    (by norm_num)).2

theorem handleReadCoils_shape (ds : DefaultDataStore) (req : PDU) :
    (handleReadCoils ds req).2.functionCode = req.functionCode ∨
    ((handleReadCoils ds req).2.functionCode = req.functionCode ||| 0x80 ∧
      ∃ c, (handleReadCoils ds req).2.data = [c]) := by
  simp only [handleReadCoils, exceptionFor, newExceptionResponse, toException]
  repeat' split
  all_goals first
    | exact Or.inl rfl
    | exact Or.inr ⟨rfl, _, rfl⟩

theorem handleReadDiscreteInputs_shape (ds : DefaultDataStore) (req : PDU) :
    (handleReadDiscreteInputs ds req).2.functionCode = req.functionCode ∨
    ((handleReadDiscreteInputs ds req).2.functionCode = req.functionCode ||| 0x80 ∧
      ∃ c, (handleReadDiscreteInputs ds req).2.data = [c]) := by
  simp only [handleReadDiscreteInputs, exceptionFor, newExceptionResponse, toException]
  repeat' split
  all_goals first
    | exact Or.inl rfl
    | exact Or.inr ⟨rfl, _, rfl⟩

theorem handleReadHoldingRegisters_shape (ds : DefaultDataStore) (req : PDU) :
    (handleReadHoldingRegisters ds req).2.functionCode = req.functionCode ∨
    ((handleReadHoldingRegisters ds req).2.functionCode = req.functionCode ||| 0x80 ∧
      ∃ c, (handleReadHoldingRegisters ds req).2.data = [c]) := by
  simp only [handleReadHoldingRegisters, exceptionFor, newExceptionResponse, toException]
  repeat' split
  all_goals first
    | exact Or.inl rfl
    | exact Or.inr ⟨rfl, _, rfl⟩

theorem handleReadInputRegisters_shape (ds : DefaultDataStore) (req : PDU) :
    (handleReadInputRegisters ds req).2.functionCode = req.functionCode ∨
    ((handleReadInputRegisters ds req).2.functionCode = req.functionCode ||| 0x80 ∧
      ∃ c, (handleReadInputRegisters ds req).2.data = [c]) := by
  simp only [handleReadInputRegisters, exceptionFor, newExceptionResponse, toException]
  repeat' split
  all_goals first
    | exact Or.inl rfl
    | exact Or.inr ⟨rfl, _, rfl⟩

theorem handleWriteSingleCoil_shape (ds : DefaultDataStore) (req : PDU) :
    (handleWriteSingleCoil ds req).2.functionCode = req.functionCode ∨
    ((handleWriteSingleCoil ds req).2.functionCode = req.functionCode ||| 0x80 ∧
      ∃ c, (handleWriteSingleCoil ds req).2.data = [c]) := by
  simp only [handleWriteSingleCoil, exceptionFor, newExceptionResponse, toException]
  repeat' split
  all_goals first
    | exact Or.inl rfl
    | exact Or.inr ⟨rfl, _, rfl⟩

theorem handleWriteSingleRegister_shape (ds : DefaultDataStore) (req : PDU) :
    (handleWriteSingleRegister ds req).2.functionCode = req.functionCode ∨
    ((handleWriteSingleRegister ds req).2.functionCode = req.functionCode ||| 0x80 ∧
      ∃ c, (handleWriteSingleRegister ds req).2.data = [c]) := by
  simp only [handleWriteSingleRegister, exceptionFor, newExceptionResponse, toException]
  repeat' split
  all_goals first
    | exact Or.inl rfl
    | exact Or.inr ⟨rfl, _, rfl⟩

theorem handleWriteMultipleCoils_shape (ds : DefaultDataStore) (req : PDU) :
    (handleWriteMultipleCoils ds req).2.functionCode = req.functionCode ∨
    ((handleWriteMultipleCoils ds req).2.functionCode = req.functionCode ||| 0x80 ∧
      ∃ c, (handleWriteMultipleCoils ds req).2.data = [c]) := by
  simp only [handleWriteMultipleCoils, exceptionFor, newExceptionResponse, toException]
  repeat' split
  all_goals first
    | exact Or.inl rfl
    | exact Or.inr ⟨rfl, _, rfl⟩

theorem handleWriteMultipleRegisters_shape (ds : DefaultDataStore) (req : PDU) :
    (handleWriteMultipleRegisters ds req).2.functionCode = req.functionCode ∨
    ((handleWriteMultipleRegisters ds req).2.functionCode = req.functionCode ||| 0x80 ∧
      ∃ c, (handleWriteMultipleRegisters ds req).2.data = [c]) := by
  simp only [handleWriteMultipleRegisters, exceptionFor, newExceptionResponse, toException]
  repeat' split
  all_goals first
    | exact Or.inl rfl
    | exact Or.inr ⟨rfl, _, rfl⟩

theorem handleMaskWriteRegister_shape (ds : DefaultDataStore) (req : PDU) :
    (handleMaskWriteRegister ds req).2.functionCode = req.functionCode ∨
    ((handleMaskWriteRegister ds req).2.functionCode = req.functionCode ||| 0x80 ∧
      ∃ c, (handleMaskWriteRegister ds req).2.data = [c]) := by
  simp only [handleMaskWriteRegister, exceptionFor, newExceptionResponse, toException]
  repeat' split
  all_goals first
    | exact Or.inl rfl
    | exact Or.inr ⟨rfl, _, rfl⟩

theorem handleReadWriteMultipleRegisters_shape (ds : DefaultDataStore) (req : PDU) :
    (handleReadWriteMultipleRegisters ds req).2.functionCode = req.functionCode ∨
    ((handleReadWriteMultipleRegisters ds req).2.functionCode = req.functionCode ||| 0x80 ∧
      ∃ c, (handleReadWriteMultipleRegisters ds req).2.data = [c]) := by
  simp only [handleReadWriteMultipleRegisters, exceptionFor, newExceptionResponse, toException]
  repeat' split
  all_goals first
    | exact Or.inl rfl
    | exact Or.inr ⟨rfl, _, rfl⟩

theorem handleReadExceptionStatus_shape (ds : DefaultDataStore) (req : PDU) :
    (handleReadExceptionStatus ds req).2.functionCode = req.functionCode ∨
    ((handleReadExceptionStatus ds req).2.functionCode = req.functionCode ||| 0x80 ∧
      ∃ c, (handleReadExceptionStatus ds req).2.data = [c]) := by
  simp only [handleReadExceptionStatus, exceptionFor, newExceptionResponse, toException]
  repeat' split
  all_goals first
    | exact Or.inl rfl
    | exact Or.inr ⟨rfl, _, rfl⟩

theorem handleDiagnostic_shape (ds : DefaultDataStore) (req : PDU) :
    (handleDiagnostic ds req).2.functionCode = req.functionCode ∨
    ((handleDiagnostic ds req).2.functionCode = req.functionCode ||| 0x80 ∧
      ∃ c, (handleDiagnostic ds req).2.data = [c]) := by
  simp only [handleDiagnostic, exceptionFor, newExceptionResponse, toException]
  repeat' split
  all_goals first
    | exact Or.inl rfl
    | exact Or.inr ⟨rfl, _, rfl⟩

theorem handleGetCommEventCounter_shape (ds : DefaultDataStore) (req : PDU) :
    (handleGetCommEventCounter ds req).2.functionCode = req.functionCode ∨
    ((handleGetCommEventCounter ds req).2.functionCode = req.functionCode ||| 0x80 ∧
      ∃ c, (handleGetCommEventCounter ds req).2.data = [c]) := by
  simp only [handleGetCommEventCounter, exceptionFor, newExceptionResponse, toException]
  repeat' split
  all_goals first
    | exact Or.inl rfl
    | exact Or.inr ⟨rfl, _, rfl⟩

theorem handleGetCommEventLog_shape (ds : DefaultDataStore) (req : PDU) :
    (handleGetCommEventLog ds req).2.functionCode = req.functionCode ∨
    ((handleGetCommEventLog ds req).2.functionCode = req.functionCode ||| 0x80 ∧
      ∃ c, (handleGetCommEventLog ds req).2.data = [c]) := by
  simp only [handleGetCommEventLog, exceptionFor, newExceptionResponse, toException]
  repeat' split
  all_goals first
    | exact Or.inl rfl
    | exact Or.inr ⟨rfl, _, rfl⟩

theorem handleReportServerID_shape (ds : DefaultDataStore) (req : PDU) :
    (handleReportServerID ds req).2.functionCode = req.functionCode ∨
    ((handleReportServerID ds req).2.functionCode = req.functionCode ||| 0x80 ∧
      ∃ c, (handleReportServerID ds req).2.data = [c]) := by
  simp only [handleReportServerID, exceptionFor, newExceptionResponse, toException]
  exact Or.inl trivial

theorem handleReadFileRecord_shape (ds : DefaultDataStore) (req : PDU) :
    (handleReadFileRecord ds req).2.functionCode = req.functionCode ∨
    ((handleReadFileRecord ds req).2.functionCode = req.functionCode ||| 0x80 ∧
      ∃ c, (handleReadFileRecord ds req).2.data = [c]) := by
  simp only [handleReadFileRecord, exceptionFor, newExceptionResponse, toException]
  repeat' split
  all_goals first
    | exact Or.inl rfl
    | exact Or.inr ⟨rfl, _, rfl⟩

theorem handleWriteFileRecord_shape (ds : DefaultDataStore) (req : PDU) :
    (handleWriteFileRecord ds req).2.functionCode = req.functionCode ∨
    ((handleWriteFileRecord ds req).2.functionCode = req.functionCode ||| 0x80 ∧
      ∃ c, (handleWriteFileRecord ds req).2.data = [c]) := by
  simp only [handleWriteFileRecord, exceptionFor, newExceptionResponse, toException]
  repeat' split
  all_goals first
    | exact Or.inl rfl
    | exact Or.inr ⟨rfl, _, rfl⟩

theorem handleReadFIFOQueue_shape (ds : DefaultDataStore) (req : PDU) :
    (handleReadFIFOQueue ds req).2.functionCode = req.functionCode ∨
    ((handleReadFIFOQueue ds req).2.functionCode = req.functionCode ||| 0x80 ∧
      ∃ c, (handleReadFIFOQueue ds req).2.data = [c]) := by
  simp only [handleReadFIFOQueue, exceptionFor, newExceptionResponse, toException]
  repeat' split
  all_goals first
    | exact Or.inl rfl
    | exact Or.inr ⟨rfl, _, rfl⟩

theorem handleReadDeviceIdentification_shape (dev : DeviceIdentification)
    (ds : DefaultDataStore) (req : PDU) :
    (handleReadDeviceIdentification dev ds req).2.functionCode = req.functionCode ∨
    ((handleReadDeviceIdentification dev ds req).2.functionCode =
        req.functionCode ||| 0x80 ∧
      ∃ c, (handleReadDeviceIdentification dev ds req).2.data = [c]) := by
  simp only [handleReadDeviceIdentification, exceptionFor, newExceptionResponse,
    toException]
  repeat' split
  all_goals first
    | exact Or.inl rfl
    | exact Or.inr ⟨rfl, _, rfl⟩

theorem handleEncapsulatedInterface_shape (dev : DeviceIdentification)
    (ds : DefaultDataStore) (req : PDU) :
    (handleEncapsulatedInterface dev ds req).2.functionCode = req.functionCode ∨
    ((handleEncapsulatedInterface dev ds req).2.functionCode =
        req.functionCode ||| 0x80 ∧
      ∃ c, (handleEncapsulatedInterface dev ds req).2.data = [c]) := by
  simp only [handleEncapsulatedInterface]
  split
  · exact Or.inr ⟨rfl, _, rfl⟩
  · split
    · exact handleReadDeviceIdentification_shape dev ds req
    · exact Or.inr ⟨rfl, _, rfl⟩

theorem shape_with_mem (req : PDU) (pr : DefaultDataStore × PDU)
    (hs : pr.2.functionCode = req.functionCode ∨
      (pr.2.functionCode = req.functionCode ||| 0x80 ∧ ∃ c, pr.2.data = [c]))
    (hmem : req.functionCode ∈ handledFunctionCodes) :
    (pr.2.functionCode = req.functionCode ∧
      req.functionCode ∈ handledFunctionCodes) ∨
    (pr.2.functionCode = req.functionCode ||| 0x80 ∧ ∃ c, pr.2.data = [c]) := by
  rcases hs with h | h
  · exact Or.inl ⟨h, hmem⟩
  · exact Or.inr h

set_option maxHeartbeats 2000000 in
theorem handleRequest_shape (dev : DeviceIdentification) (ds : DefaultDataStore)
    (req : PDU) :
    ((HandleRequest dev ds req).2.functionCode = req.functionCode ∧
      req.functionCode ∈ handledFunctionCodes) ∨
    ((HandleRequest dev ds req).2.functionCode = req.functionCode ||| 0x80 ∧
      ∃ c, (HandleRequest dev ds req).2.data = [c]) := by
  by_cases h1 : req.functionCode = FuncCodeReadCoils
  · have he : HandleRequest dev ds req = handleReadCoils ds req := by
      unfold HandleRequest
      rw [if_pos h1]
    rw [he]
    exact shape_with_mem req _ (handleReadCoils_shape ds req)
      (by rw [h1]; simp [handledFunctionCodes])
  by_cases h2 : req.functionCode = FuncCodeReadDiscreteInputs
  · have he : HandleRequest dev ds req = handleReadDiscreteInputs ds req := by
      unfold HandleRequest
      rw [if_neg h1, if_pos h2]
    rw [he]
    exact shape_with_mem req _ (handleReadDiscreteInputs_shape ds req)
      (by rw [h2]; simp [handledFunctionCodes])
  by_cases h3 : req.functionCode = FuncCodeReadHoldingRegisters
  · have he : HandleRequest dev ds req = handleReadHoldingRegisters ds req := by
      unfold HandleRequest
      rw [if_neg h1, if_neg h2, if_pos h3]
    rw [he]
    exact shape_with_mem req _ (handleReadHoldingRegisters_shape ds req)
      (by rw [h3]; simp [handledFunctionCodes])
  by_cases h4 : req.functionCode = FuncCodeReadInputRegisters
  · have he : HandleRequest dev ds req = handleReadInputRegisters ds req := by
      unfold HandleRequest
      rw [if_neg h1, if_neg h2, if_neg h3, if_pos h4]
    rw [he]
    exact shape_with_mem req _ (handleReadInputRegisters_shape ds req)
      (by rw [h4]; simp [handledFunctionCodes])
  by_cases h5 : req.functionCode = FuncCodeWriteSingleCoil
  · have he : HandleRequest dev ds req = handleWriteSingleCoil ds req := by
      unfold HandleRequest
      rw [if_neg h1, if_neg h2, if_neg h3, if_neg h4, if_pos h5]
    rw [he]
    exact shape_with_mem req _ (handleWriteSingleCoil_shape ds req)
      (by rw [h5]; simp [handledFunctionCodes])
  by_cases h6 : req.functionCode = FuncCodeWriteSingleRegister
  · have he : HandleRequest dev ds req = handleWriteSingleRegister ds req := by
      unfold HandleRequest
      rw [if_neg h1, if_neg h2, if_neg h3, if_neg h4, if_neg h5, if_pos h6]
    rw [he]
    exact shape_with_mem req _ (handleWriteSingleRegister_shape ds req)
      (by rw [h6]; simp [handledFunctionCodes])
  by_cases h7 : req.functionCode = FuncCodeWriteMultipleCoils
  · have he : HandleRequest dev ds req = handleWriteMultipleCoils ds req := by
      unfold HandleRequest
      rw [if_neg h1, if_neg h2, if_neg h3, if_neg h4, if_neg h5, if_neg h6, if_pos h7]
    rw [he]
    exact shape_with_mem req _ (handleWriteMultipleCoils_shape ds req)
      (by rw [h7]; simp [handledFunctionCodes])
  by_cases h8 : req.functionCode = FuncCodeWriteMultipleRegisters
  · have he : HandleRequest dev ds req = handleWriteMultipleRegisters ds req := by
      unfold HandleRequest
      rw [if_neg h1, if_neg h2, if_neg h3, if_neg h4, if_neg h5, if_neg h6, if_neg h7, if_pos h8]
    rw [he]
    exact shape_with_mem req _ (handleWriteMultipleRegisters_shape ds req)
      (by rw [h8]; simp [handledFunctionCodes])
  by_cases h9 : req.functionCode = FuncCodeMaskWriteRegister
  · have he : HandleRequest dev ds req = handleMaskWriteRegister ds req := by
      unfold HandleRequest
      rw [if_neg h1, if_neg h2, if_neg h3, if_neg h4, if_neg h5, if_neg h6, if_neg h7, if_neg h8, if_pos h9]
    rw [he]
    exact shape_with_mem req _ (handleMaskWriteRegister_shape ds req)
      (by rw [h9]; simp [handledFunctionCodes])
  by_cases h10 : req.functionCode = FuncCodeReadWriteMultipleRegs
  · have he : HandleRequest dev ds req = handleReadWriteMultipleRegisters ds req := by
      unfold HandleRequest
      rw [if_neg h1, if_neg h2, if_neg h3, if_neg h4, if_neg h5, if_neg h6, if_neg h7, if_neg h8, if_neg h9, if_pos h10]
    rw [he]
    exact shape_with_mem req _ (handleReadWriteMultipleRegisters_shape ds req)
      (by rw [h10]; simp [handledFunctionCodes])
  by_cases h11 : req.functionCode = FuncCodeReadExceptionStatus
  · have he : HandleRequest dev ds req = handleReadExceptionStatus ds req := by
      unfold HandleRequest
      rw [if_neg h1, if_neg h2, if_neg h3, if_neg h4, if_neg h5, if_neg h6, if_neg h7, if_neg h8, if_neg h9, if_neg h10, if_pos h11]
    rw [he]
    exact shape_with_mem req _ (handleReadExceptionStatus_shape ds req)
      (by rw [h11]; simp [handledFunctionCodes])
  by_cases h12 : req.functionCode = FuncCodeDiagnostic
  · have he : HandleRequest dev ds req = handleDiagnostic ds req := by
      unfold HandleRequest
      rw [if_neg h1, if_neg h2, if_neg h3, if_neg h4, if_neg h5, if_neg h6, if_neg h7, if_neg h8, if_neg h9, if_neg h10, if_neg h11, if_pos h12]
    rw [he]
    exact shape_with_mem req _ (handleDiagnostic_shape ds req)
      (by rw [h12]; simp [handledFunctionCodes])
  by_cases h13 : req.functionCode = FuncCodeGetCommEventCounter
  · have he : HandleRequest dev ds req = handleGetCommEventCounter ds req := by
      unfold HandleRequest
      rw [if_neg h1, if_neg h2, if_neg h3, if_neg h4, if_neg h5, if_neg h6, if_neg h7, if_neg h8, if_neg h9, if_neg h10, if_neg h11, if_neg h12, if_pos h13]
    rw [he]
    exact shape_with_mem req _ (handleGetCommEventCounter_shape ds req)
      (by rw [h13]; simp [handledFunctionCodes])
  by_cases h14 : req.functionCode = FuncCodeGetCommEventLog
  · have he : HandleRequest dev ds req = handleGetCommEventLog ds req := by
      unfold HandleRequest
      rw [if_neg h1, if_neg h2, if_neg h3, if_neg h4, if_neg h5, if_neg h6, if_neg h7, if_neg h8, if_neg h9, if_neg h10, if_neg h11, if_neg h12, if_neg h13, if_pos h14]
    rw [he]
    exact shape_with_mem req _ (handleGetCommEventLog_shape ds req)
      (by rw [h14]; simp [handledFunctionCodes])
  by_cases h15 : req.functionCode = FuncCodeReportServerID
  · have he : HandleRequest dev ds req = handleReportServerID ds req := by
      unfold HandleRequest
      rw [if_neg h1, if_neg h2, if_neg h3, if_neg h4, if_neg h5, if_neg h6, if_neg h7, if_neg h8, if_neg h9, if_neg h10, if_neg h11, if_neg h12, if_neg h13, if_neg h14, if_pos h15]
    rw [he]
    exact shape_with_mem req _ (handleReportServerID_shape ds req)
      (by rw [h15]; simp [handledFunctionCodes])
  by_cases h16 : req.functionCode = FuncCodeReadFileRecord
  · have he : HandleRequest dev ds req = handleReadFileRecord ds req := by
      unfold HandleRequest
      rw [if_neg h1, if_neg h2, if_neg h3, if_neg h4, if_neg h5, if_neg h6, if_neg h7, if_neg h8, if_neg h9, if_neg h10, if_neg h11, if_neg h12, if_neg h13, if_neg h14, if_neg h15, if_pos h16]
    rw [he]
    exact shape_with_mem req _ (handleReadFileRecord_shape ds req)
      (by rw [h16]; simp [handledFunctionCodes])
  by_cases h17 : req.functionCode = FuncCodeWriteFileRecord
  · have he : HandleRequest dev ds req = handleWriteFileRecord ds req := by
      unfold HandleRequest
      rw [if_neg h1, if_neg h2, if_neg h3, if_neg h4, if_neg h5, if_neg h6, if_neg h7, if_neg h8, if_neg h9, if_neg h10, if_neg h11, if_neg h12, if_neg h13, if_neg h14, if_neg h15, if_neg h16, if_pos h17]
    rw [he]
    exact shape_with_mem req _ (handleWriteFileRecord_shape ds req)
      (by rw [h17]; simp [handledFunctionCodes])
  by_cases h18 : req.functionCode = FuncCodeReadFIFOQueue
  · have he : HandleRequest dev ds req = handleReadFIFOQueue ds req := by
      unfold HandleRequest
      rw [if_neg h1, if_neg h2, if_neg h3, if_neg h4, if_neg h5, if_neg h6, if_neg h7, if_neg h8, if_neg h9, if_neg h10, if_neg h11, if_neg h12, if_neg h13, if_neg h14, if_neg h15, if_neg h16, if_neg h17, if_pos h18]
    rw [he]
    exact shape_with_mem req _ (handleReadFIFOQueue_shape ds req)
      (by rw [h18]; simp [handledFunctionCodes])
  by_cases h19 : req.functionCode = FuncCodeEncapsulatedInterface
  · have he : HandleRequest dev ds req = handleEncapsulatedInterface dev ds req := by
      unfold HandleRequest
      rw [if_neg h1, if_neg h2, if_neg h3, if_neg h4, if_neg h5, if_neg h6, if_neg h7, if_neg h8, if_neg h9, if_neg h10, if_neg h11, if_neg h12, if_neg h13, if_neg h14, if_neg h15, if_neg h16, if_neg h17, if_neg h18, if_pos h19]
    rw [he]
    exact shape_with_mem req _ (handleEncapsulatedInterface_shape dev ds req)
      (by rw [h19]; simp [handledFunctionCodes])
  have he : HandleRequest dev ds req =
      (ds, newExceptionResponse req.functionCode ExceptionCodeIllegalFunction) := by
    unfold HandleRequest
    rw [if_neg h1, if_neg h2, if_neg h3, if_neg h4, if_neg h5, if_neg h6, if_neg h7, if_neg h8, if_neg h9, if_neg h10, if_neg h11, if_neg h12, if_neg h13, if_neg h14, if_neg h15, if_neg h16, if_neg h17, if_neg h18, if_neg h19]
  rw [he]
  exact Or.inr ⟨rfl, _, rfl⟩

/-- C9: every exception response the dispatcher produces carries the
    request's function code with the high bit set and a single-byte payload;
    a function code with no handler yields an IllegalFunction (0x01)
    exception. -/
theorem exception_response_spec (dev : DeviceIdentification)
    (ds : DefaultDataStore) (req : PDU) :
    (isExceptionCode (HandleRequest dev ds req).2.functionCode = true →
      (HandleRequest dev ds req).2.functionCode = req.functionCode ||| 0x80 ∧
      (HandleRequest dev ds req).2.data.length = 1) ∧
    (req.functionCode ∉ handledFunctionCodes →
      (HandleRequest dev ds req).2 =
        newExceptionResponse req.functionCode ExceptionCodeIllegalFunction) := by
  constructor
  · intro hexc
    rcases handleRequest_shape dev ds req with ⟨hfc, hmem⟩ | ⟨hfc, c, hdata⟩
    · exfalso
      rw [hfc] at hexc
      simp only [handledFunctionCodes, List.mem_cons, List.not_mem_nil,
        or_false] at hmem
      rcases hmem with h|h|h|h|h|h|h|h|h|h|h|h|h|h|h|h|h|h|h <;>
        rw [h] at hexc <;> exact absurd hexc (by decide)
    · refine ⟨hfc, ?_⟩
      rw [hdata]
      rfl
  · intro hnot
    simp only [handledFunctionCodes, List.mem_cons, List.not_mem_nil,
      or_false, not_or] at hnot
    obtain ⟨n1, n2, n3, n4, n5, n6, n7, n8, n9, n10, n11, n12, n13, n14, n15,
      n16, n17, n18, n19⟩ := hnot
    unfold HandleRequest
    rw [if_neg n1, if_neg n2, if_neg n3, if_neg n4, if_neg n5, if_neg n6,
      if_neg n7, if_neg n8, if_neg n9, if_neg n10, if_neg n11, if_neg n12,
      if_neg n13, if_neg n14, if_neg n15, if_neg n16, if_neg n17, if_neg n18,
      if_neg n19]

/-- Witness for C9: an unknown function code 0x63 yields the IllegalFunction
    exception. -/
theorem exception_response_witness :
    (HandleRequest defaultDeviceInfo (NewDefaultDataStore 0 0 0 0)
        ⟨0x63, []⟩).2 =
      newExceptionResponse 0x63 ExceptionCodeIllegalFunction :=
  (exception_response_spec defaultDeviceInfo (NewDefaultDataStore 0 0 0 0)
    ⟨0x63, []⟩).2 (by decide)
